import Mathlib

/-!
Verification development for the barcode verification station
(FastAPI variant: `src/main.py`, `src/models.py`).

The store and the request handlers are shallowly embedded: database rows
become Lean structures, each HTTP handler becomes a pure function from the
application state (plus the clock readings it samples) to a response and a
new state, and a request-per-task run of the system becomes a fold of such
operations.  Each handler's body runs inside one store transaction in the
source, so one Lean function application models one serialized transaction.

Python `datetime` values are modelled as integers (timestamps); `date`
values as integers (day numbers); Python `str.strip()` as `pyStrip` below.
Python's arbitrary-precision `int` columns are modelled as `Int`.
-/

namespace BarcodeVerification

/-- Row of the `jobs` table (`models.py`, class `Job`).  `pass_count`,
`fail_count`, `total_scans` in the source are properties returning the
`cached_*` columns, and `total_pieces` is derived; they are defined below. -/
structure Job where
  id : Nat
  job_id : String
  expected_barcode : String
  pieces_per_shipper : Int
  target_quantity : Int
  start_time : Int
  end_time : Option Int
  is_active : Bool
  cached_pass_count : Int
  cached_fail_count : Int
  cached_total_scans : Int
deriving DecidableEq

/-- Property `Job.pass_count`: returns the cached count. -/
def Job.pass_count (j : Job) : Int := j.cached_pass_count

/-- Property `Job.fail_count`: returns the cached count. -/
def Job.fail_count (j : Job) : Int := j.cached_fail_count

/-- Property `Job.total_scans`: returns the cached count. -/
def Job.total_scans (j : Job) : Int := j.cached_total_scans

/-- Property `Job.total_pieces = cached_pass_count * pieces_per_shipper`. -/
def Job.total_pieces (j : Job) : Int := j.cached_pass_count * j.pieces_per_shipper

/-- Row of the `scans` table (`models.py`, class `Scan`).  `status` is the
string `"PASS"` or `"FAIL"` exactly as stored by the source. -/
structure Scan where
  id : Nat
  job_id : Nat
  barcode : String
  expected : String
  status : String
  timestamp : Int
deriving DecidableEq

/-- Row of the `shift_stats` table (`models.py`, class `ShiftStats`);
one row per date. -/
structure ShiftStats where
  date : Int
  total_shippers : Int
  total_pieces : Int
  total_pass : Int
  total_fail : Int
  jobs_completed : Int
deriving DecidableEq

/-- A fresh ShiftStats row for a date, all totals at their column defaults. -/
def ShiftStats.fresh (d : Int) : ShiftStats :=
  { date := d, total_shippers := 0, total_pieces := 0, total_pass := 0,
    total_fail := 0, jobs_completed := 0 }

/-- The application state: the three database tables, the in-memory
`pin_attempts` map of `main.py` (an association list with `defaultdict`
semantics), and the autoincrement counters for the two primary keys. -/
structure AppState where
  jobs : List Job
  scans : List Scan
  shift_stats : List ShiftStats
  pin_attempts : List (String × List Int)
  next_job_pk : Nat
  next_scan_pk : Nat
deriving DecidableEq

/-- The empty store (fresh database, no PIN attempts recorded). -/
def initState : AppState :=
  { jobs := [], scans := [], shift_stats := [], pin_attempts := [],
    next_job_pk := 1, next_scan_pk := 1 }

/-- Python `str.strip()` on the source's inputs: drop leading and trailing
whitespace characters.  Defined structurally over the character list so that
the kernel can evaluate it. -/
def pyStrip (s : String) : String :=
  ⟨((s.toList.dropWhile Char.isWhitespace).reverse.dropWhile Char.isWhitespace).reverse⟩

/-- `select(Job).where(Job.is_active == True)).first()`. -/
def findActiveJob (s : AppState) : Option Job :=
  s.jobs.find? (fun j => j.is_active)

/-- `select(ShiftStats).where(ShiftStats.date == today)).first()`. -/
def findShift (rows : List ShiftStats) (today : Int) : Option ShiftStats :=
  rows.find? (fun r => r.date == today)

/-- SQL `UPDATE jobs ... WHERE id = pk` issued when the ORM flushes a
mutated `Job` object (the primary key is unique in the database). -/
def updateJobRow (jobs : List Job) (pk : Nat) (j' : Job) : List Job :=
  jobs.map (fun j => if j.id == pk then j' else j)

/-- Flushing the mutated first-matching `ShiftStats` row: the fetched row
(the first with this date) is replaced, later rows are untouched. -/
def updateFirstShift (rows : List ShiftStats) (today : Int) (r' : ShiftStats) :
    List ShiftStats :=
  match rows with
  | [] => []
  | r :: rest =>
    if r.date == today then r' :: rest
    else r :: updateFirstShift rest today r'

-- ============================================================
-- Request validation (`models.py`, pydantic field validators)
-- ============================================================

/-- The character denylist of `JobStartRequest.validate_barcode`. -/
def barcodeDangerousChars : List Char := ['<', '>', '"', '\'', '&', ';', '\\', '\x00']

/-- The character denylist of `JobStartRequest.validate_job_id`
(the barcode list plus `/`). -/
def jobIdDangerousChars : List Char := ['<', '>', '"', '\'', '&', ';', '\\', '/', '\x00']

/-- `any(char in v for char in dangerous_chars)`. -/
def hasDangerousChar (denylist : List Char) (v : String) : Bool :=
  v.toList.any (fun c => denylist.contains c)

/-- `any(ord(char) < 32 ...)`; when `allowTabNlCr` is true the characters
`\t`, `\n`, `\r` are excluded, as in `validate_barcode`. -/
def hasControlChar (allowTabNlCr : Bool) (v : String) : Bool :=
  v.toList.any (fun c =>
    c.toNat < 32 && !(allowTabNlCr && (c == '\t' || c == '\n' || c == '\r')))

/-- `JobStartRequest.validate_job_id` (`models.py`). -/
def validate_job_id (v : Option String) : Except String (Option String) :=
  match v with
  | none => .ok none
  | some v0 =>
    let v := pyStrip v0
    if v = "" then .ok none
    else if v.length > 100 then .error "Job ID must be 100 characters or less"
    else if hasDangerousChar jobIdDangerousChars v then
      .error "Job ID contains invalid characters"
    else if hasControlChar false v then .error "Job ID contains control characters"
    else .ok (some v)

/-- `JobStartRequest.validate_barcode` (`models.py`). -/
def validate_barcode (v : String) : Except String String :=
  if v = "" then .error "Barcode is required"
  else
    let v := pyStrip v
    if v = "" then .error "Barcode cannot be empty"
    else if v.length > 200 then .error "Barcode must be 200 characters or less"
    else if v.length < 1 then .error "Barcode is too short"
    else if hasDangerousChar barcodeDangerousChars v then
      .error "Barcode contains invalid characters"
    else if hasControlChar true v then
      .error "Barcode contains invalid control characters"
    else .ok v

/-- `JobStartRequest.validate_pieces` (`models.py`). -/
def validate_pieces (v : Int) : Except String Int :=
  if v < 1 then .error "Pieces per shipper must be at least 1"
  else if v > 10000 then .error "Pieces per shipper must be 10,000 or less"
  else .ok v

/-- `JobStartRequest.validate_target` (`models.py`). -/
def validate_target (v : Int) : Except String Int :=
  if v < 0 then .error "Target quantity cannot be negative"
  else if v > 1000000 then .error "Target quantity must be 1,000,000 or less"
  else .ok v

/-- `JobEndRequest.validate_pin` (`models.py`). -/
def validate_pin (v : String) : Except String String :=
  if v = "" then .error "PIN is required"
  else
    let v := pyStrip v
    if v.length < 4 then .error "PIN must be at least 4 characters"
    else if v.length > 20 then .error "PIN must be 20 characters or less"
    else if !(v.toList.all (fun c => c.isAlphanum)) then
      .error "PIN must contain only letters and numbers"
    else .ok v

/-- Request body of `POST /api/job/start` before pydantic validation. -/
structure JobStartRequest where
  job_id : Option String
  expected_barcode : String
  pieces_per_shipper : Int
  target_quantity : Int
deriving DecidableEq

/-- The same request after pydantic has run all field validators
(each validator replaces the field by its returned value). -/
structure ValidStartRequest where
  job_id : Option String
  expected_barcode : String
  pieces_per_shipper : Int
  target_quantity : Int
deriving DecidableEq

/-- Pydantic model validation of `JobStartRequest`: the field validators
run in field order; the first failure yields a 422 response. -/
def validateStartRequest (r : JobStartRequest) : Except String ValidStartRequest := do
  let jid ← validate_job_id r.job_id
  let bc ← validate_barcode r.expected_barcode
  let pcs ← validate_pieces r.pieces_per_shipper
  let tgt ← validate_target r.target_quantity
  pure ⟨jid, bc, pcs, tgt⟩

-- ============================================================
-- POST /api/job/start  (`main.py`, `start_job`)
-- ============================================================

/-- Outcome of `POST /api/job/start`: 422 pydantic validation error,
400 empty barcode, 400 conflict (an active job exists, carrying its
`job_id`), or 200 with the created job. -/
inductive StartResult where
  | invalid (msg : String)
  | emptyBarcode
  | conflict (activeJobId : String)
  | ok (job : Job)
deriving DecidableEq

/-- `start_job` (`main.py` lines 268-352).  The check for an active job and
the insert run inside one serialized transaction (`begin_nested` with
`SELECT ... FOR UPDATE`), so the whole handler is one atomic step; the
retry-on-`OperationalError` loop re-runs the same logic and is invisible
to the sequential model. -/
def start_job (s : AppState) (req : JobStartRequest) (now : Int) :
    StartResult × AppState :=
  match validateStartRequest req with
  | .error msg => (.invalid msg, s)
  | .ok v =>
    if pyStrip v.expected_barcode = "" then (.emptyBarcode, s)
    else
      let jobId := match v.job_id with
        | some j => j
        | none => "JOB_" ++ toString now
      match findActiveJob s with
      | some active => (.conflict active.job_id, s)
      | none =>
        let job : Job :=
          { id := s.next_job_pk, job_id := jobId,
            expected_barcode := v.expected_barcode,
            pieces_per_shipper := max 1 v.pieces_per_shipper,
            target_quantity := max 0 v.target_quantity,
            start_time := now, end_time := none, is_active := true,
            cached_pass_count := 0, cached_fail_count := 0,
            cached_total_scans := 0 }
        (.ok job, { s with jobs := s.jobs ++ [job],
                           next_job_pk := s.next_job_pk + 1 })

-- ============================================================
-- POST /api/scan  (`main.py`, `process_scan`)
-- ============================================================

/-- Stable insertion step for sorting scans by `timestamp` descending;
`sortScansDesc` models Python's stable
`sorted(scans, key=lambda x: x.timestamp, reverse=True)`. -/
def insertScanDesc (x : Scan) : List Scan → List Scan
  | [] => [x]
  | y :: ys =>
    if y.timestamp ≤ x.timestamp then x :: y :: ys else y :: insertScanDesc x ys

/-- Python `sorted(..., key=timestamp, reverse=True)` (stable). -/
def sortScansDesc : List Scan → List Scan
  | [] => []
  | x :: xs => insertScanDesc x (sortScansDesc xs)

/-- Stable insertion step for sorting scans by `timestamp` ascending;
`sortScansAsc` models Python's stable `sorted(scans, key=lambda x: x.timestamp)`. -/
def insertScanAsc (x : Scan) : List Scan → List Scan
  | [] => [x]
  | y :: ys =>
    if x.timestamp ≤ y.timestamp then x :: y :: ys else y :: insertScanAsc x ys

/-- Python `sorted(..., key=timestamp)` (stable). -/
def sortScansAsc : List Scan → List Scan
  | [] => []
  | x :: xs => insertScanAsc x (sortScansAsc xs)

/-- `job.scans` relationship: the scans whose `job_id` is this job's pk. -/
def jobScans (scans : List Scan) (pk : Nat) : List Scan :=
  scans.filter (fun sc => sc.job_id == pk)

/-- `Job.recent_scans(limit)` (`models.py`): the job's scans sorted by
timestamp descending, truncated to `limit`. -/
def recent_scans (scans : List Scan) (pk : Nat) (limit : Nat) : List Scan :=
  (sortScansDesc (jobScans scans pk)).take limit

/-- Outcome of `POST /api/scan`: 400 empty barcode, 400 no active job, or
200 with the persisted scan, the refreshed job and the 8 most recent scans. -/
inductive ScanResult where
  | noBarcode
  | noActiveJob
  | ok (scan : Scan) (job : Job) (recent : List Scan)
deriving DecidableEq

/-- `process_scan` (`main.py` lines 489-549): trim, reject empty, find the
active job, classify by exact string equality, insert the Scan row and
bump the cached counters on the Job row in the same transaction. -/
def process_scan (s : AppState) (rawBarcode : String) (now : Int) :
    ScanResult × AppState :=
  let barcode := pyStrip rawBarcode
  if barcode = "" then (.noBarcode, s)
  else
    match findActiveJob s with
    | none => (.noActiveJob, s)
    | some job =>
      let status := if barcode = job.expected_barcode then "PASS" else "FAIL"
      let scan : Scan :=
        { id := s.next_scan_pk, job_id := job.id, barcode := barcode,
          expected := job.expected_barcode, status := status, timestamp := now }
      let job' : Job :=
        { job with
          cached_total_scans := job.cached_total_scans + 1,
          cached_pass_count :=
            job.cached_pass_count + (if status = "PASS" then 1 else 0),
          cached_fail_count :=
            job.cached_fail_count + (if status = "PASS" then 0 else 1) }
      let s' : AppState :=
        { s with scans := s.scans ++ [scan],
                 jobs := updateJobRow s.jobs job.id job',
                 next_scan_pk := s.next_scan_pk + 1 }
      (.ok scan job' (recent_scans s'.scans job'.id 8), s')

/-- Status string of a scan response, when it is a 200. -/
def ScanResult.scanStatus : ScanResult → Option String
  | .ok sc _ _ => some sc.status
  | _ => none

/-- Refreshed job of a scan response, when it is a 200. -/
def ScanResult.jobOf : ScanResult → Option Job
  | .ok _ j _ => some j
  | _ => none

-- ============================================================
-- PIN rate limiting (`main.py` lines 79-127)
-- ============================================================

/-- `MAX_PIN_ATTEMPTS` (`main.py`). -/
def MAX_PIN_ATTEMPTS : Nat := 5

/-- `PIN_LOCKOUT_MINUTES` (`main.py`); attempt timestamps are in minutes. -/
def PIN_LOCKOUT_MINUTES : Int := 15

/-- Reading `pin_attempts[ip]`: `defaultdict(list)` yields `[]` for an
unknown address (dict keys are unique, so the first binding is the
binding). -/
def lookupAttempts : List (String × List Int) → String → List Int
  | [], _ => []
  | p :: rest, ip => if p.1 == ip then p.2 else lookupAttempts rest ip

/-- Writing back `pin_attempts[ip]`: replace the client's binding, or add
one. -/
def setAttempts : List (String × List Int) → String → List Int →
    List (String × List Int)
  | [], ip, l => [(ip, l)]
  | p :: rest, ip, l =>
    if p.1 == ip then (p.1, l) :: rest else p :: setAttempts rest ip l

/-- `check_pin_rate_limit` (`main.py` lines 88-116): drops attempts older
than the lockout window in place (`attempts[:] = ...`) and reports whether
another attempt is allowed (fewer than `MAX_PIN_ATTEMPTS` remain). -/
def check_pin_rate_limit (attempts : List Int) (now : Int) : List Int × Bool :=
  let cutoff := now - PIN_LOCKOUT_MINUTES
  let cleaned := attempts.filter (fun t => cutoff < t)
  (cleaned, decide (cleaned.length < MAX_PIN_ATTEMPTS))

/-- `record_pin_attempt` (`main.py` lines 118-127): appends the current
timestamp whether or not the attempt succeeded (`success` only selects the
log message). -/
def record_pin_attempt (attempts : List Int) (now : Int) (success : Bool) :
    List Int :=
  let _ := success
  attempts ++ [now]

/-- Outcome of `POST /api/verify_pin`: 422 pydantic validation error,
429 rate limited, 403 invalid PIN, or 200. -/
inductive PinResult where
  | invalid (msg : String)
  | tooMany
  | forbidden
  | ok
deriving DecidableEq

/-- `verify_pin` (`main.py` lines 354-380): rate-limit check, then PIN
comparison against the configured supervisor PIN, then the attempt is
recorded. -/
def verify_pin (s : AppState) (rawPin ip supervisorPin : String) (now : Int) :
    PinResult × AppState :=
  match validate_pin rawPin with
  | .error msg => (.invalid msg, s)
  | .ok pin =>
    let attempts := lookupAttempts s.pin_attempts ip
    let (cleaned, allowed) := check_pin_rate_limit attempts now
    if !allowed then
      (.tooMany, { s with pin_attempts := setAttempts s.pin_attempts ip cleaned })
    else
      let success := pin == supervisorPin
      let recorded := record_pin_attempt cleaned now success
      let s' := { s with pin_attempts := setAttempts s.pin_attempts ip recorded }
      if success then (.ok, s') else (.forbidden, s')

-- ============================================================
-- POST /api/job/end  (`main.py`, `end_job`)
-- ============================================================

/-- Outcome of `POST /api/job/end`: 422 validation, 429 rate limited,
403 invalid PIN, 400 no active job, or 200 with the summary payload. -/
inductive EndResult where
  | invalid (msg : String)
  | tooMany
  | forbidden
  | noActiveJob
  | ok (jobId : String) (total_scans total_pieces pass_count fail_count : Int)
deriving DecidableEq

/-- `end_job` (`main.py` lines 382-474): rate limit, PIN check and attempt
recording as in `verify_pin`; then the active job is marked inactive with
`end_time = now`, today's ShiftStats row is fetched or created, the job's
totals are added into it, and both updates are committed together. -/
def end_job (s : AppState) (rawPin ip supervisorPin : String) (now today : Int) :
    EndResult × AppState :=
  match validate_pin rawPin with
  | .error msg => (.invalid msg, s)
  | .ok pin =>
    let attempts := lookupAttempts s.pin_attempts ip
    let (cleaned, allowed) := check_pin_rate_limit attempts now
    if !allowed then
      (.tooMany, { s with pin_attempts := setAttempts s.pin_attempts ip cleaned })
    else
      let success := pin == supervisorPin
      let recorded := record_pin_attempt cleaned now success
      let s1 := { s with pin_attempts := setAttempts s.pin_attempts ip recorded }
      if !success then (.forbidden, s1)
      else
        match findActiveJob s with
        | none => (.noActiveJob, s1)
        | some job =>
          let job' := { job with is_active := false, end_time := some now }
          let baseShift := (findShift s1.shift_stats today).getD (ShiftStats.fresh today)
          let shift' := { baseShift with
            total_shippers := baseShift.total_shippers + job.total_scans,
            total_pieces := baseShift.total_pieces + job.total_pieces,
            total_pass := baseShift.total_pass + job.pass_count,
            total_fail := baseShift.total_fail + job.fail_count,
            jobs_completed := baseShift.jobs_completed + 1 }
          let newShifts :=
            match findShift s1.shift_stats today with
            | some _ => updateFirstShift s1.shift_stats today shift'
            | none => s1.shift_stats ++ [shift']
          let s2 := { s1 with jobs := updateJobRow s1.jobs job.id job',
                              shift_stats := newShifts }
          (.ok job.job_id job.total_scans job.total_pieces job.pass_count
             job.fail_count, s2)

-- ============================================================
-- GET /api/status  (`main.py`, `get_status`; `models.py`, `JobRead`)
-- ============================================================

/-- `JobRead` (`models.py` lines 156-197), the job payload of status and
scan responses.  The purely presentational fields of the source — the
`strftime`/`isoformat` renderings of `start_time`, the float `pass_rate`,
and the per-clock-hour scan counts — are formatting views of fields already
present here plus the clock, and are not separately modelled;
`elapsed_seconds` is the integer number of seconds that the source formats
as `H:MM:SS`. -/
structure JobRead where
  id : Nat
  job_id : String
  expected_barcode : String
  pieces_per_shipper : Int
  target_quantity : Int
  start_time : Int
  is_active : Bool
  pass_count : Int
  fail_count : Int
  total_scans : Int
  total_pieces : Int
  elapsed_seconds : Int
deriving DecidableEq

/-- `JobRead.from_job` (`models.py`): `elapsed` uses `end_time or now`. -/
def JobRead.from_job (j : Job) (now : Int) : JobRead :=
  { id := j.id, job_id := j.job_id, expected_barcode := j.expected_barcode,
    pieces_per_shipper := j.pieces_per_shipper,
    target_quantity := j.target_quantity, start_time := j.start_time,
    is_active := j.is_active, pass_count := j.pass_count,
    fail_count := j.fail_count, total_scans := j.total_scans,
    total_pieces := j.total_pieces,
    elapsed_seconds := (j.end_time.getD now) - j.start_time }

/-- `StatusResponse` (`models.py`): the active job rendered as `JobRead`,
today's ShiftStats row, and the server clock. -/
structure StatusResponse where
  active_job : Option JobRead
  shift : Option ShiftStats
  server_time : Int
deriving DecidableEq

/-- `get_status` (`main.py` lines 223-234): a pure read of the active job
and today's shift row. -/
def get_status (s : AppState) (now today : Int) : StatusResponse :=
  { active_job := (findActiveJob s).map (fun j => JobRead.from_job j now),
    shift := findShift s.shift_stats today,
    server_time := now }

-- ============================================================
-- GET /api/backup  (`main.py`, `backup_data`)
-- ============================================================

/-- One entry of the backup's `recent_scans` list (field order as written
by `backup_data`). -/
structure BackupScan where
  barcode : String
  status : String
  timestamp : Int
  expected : String
deriving DecidableEq

/-- The `active_job` object of the backup payload.  Note it carries
`pass_count`, `fail_count`, `total_scans` and `total_pieces`. -/
structure BackupJob where
  job_id : String
  expected_barcode : String
  pieces_per_shipper : Int
  target_quantity : Int
  start_time : Int
  pass_count : Int
  fail_count : Int
  total_scans : Int
  total_pieces : Int
  is_active : Bool
  end_time : Option Int
  recent_scans : List BackupScan
deriving DecidableEq

/-- The `shift_stats` object of the backup payload. -/
structure BackupShift where
  total_shippers : Int
  total_pieces : Int
  jobs_completed : Int
  total_pass : Int
  total_fail : Int
  date : Int
deriving DecidableEq

/-- The whole backup payload. -/
structure BackupState where
  shift_stats : BackupShift
  active_job : Option BackupJob
deriving DecidableEq

/-- `backup_data` (`main.py` lines 666-713): today's shift totals (zeros
when the row is missing), plus the active job, if any, with all of its
scans sorted by timestamp ascending. -/
def backup_data (s : AppState) (today : Int) : BackupState :=
  let sh := (findShift s.shift_stats today).getD (ShiftStats.fresh today)
  { shift_stats :=
      { total_shippers := sh.total_shippers, total_pieces := sh.total_pieces,
        jobs_completed := sh.jobs_completed, total_pass := sh.total_pass,
        total_fail := sh.total_fail, date := sh.date },
    active_job := (findActiveJob s).map (fun j =>
      { job_id := j.job_id, expected_barcode := j.expected_barcode,
        pieces_per_shipper := j.pieces_per_shipper,
        target_quantity := j.target_quantity, start_time := j.start_time,
        pass_count := j.pass_count, fail_count := j.fail_count,
        total_scans := j.total_scans, total_pieces := j.total_pieces,
        is_active := j.is_active, end_time := j.end_time,
        recent_scans := (sortScansAsc (jobScans s.scans j.id)).map (fun sc =>
          { barcode := sc.barcode, status := sc.status,
            timestamp := sc.timestamp, expected := sc.expected }) }) }

-- ============================================================
-- POST /api/restore  (`main.py`, `restore_data`)
-- ============================================================

/-- One scan entry of an uploaded restore payload.  A `none` field models a
JSON object in which the key is missing (`KeyError`) or, for `timestamp`,
a value `datetime.fromisoformat` cannot parse — either raises inside the
restore transaction. -/
structure RestoreScanData where
  barcode : Option String
  expected : Option String
  status : Option String
  timestamp : Option Int
deriving DecidableEq

/-- The `shift_stats` object of an uploaded restore payload.  `date` is
`none` when the key is missing or the string does not parse; the totals use
`.get(..., 0)`, so they are always available with default `0`. -/
structure RestoreShiftData where
  date : Option Int
  total_shippers : Int
  total_pieces : Int
  total_pass : Int
  total_fail : Int
  jobs_completed : Int
deriving DecidableEq

/-- The `active_job` object of an uploaded restore payload.  Required keys
(`job_id`, ..., `start_time`) are `none` when missing or unparseable.
`end_time` distinguishes absent-or-null (`none`, stored as NULL), present
but unparseable (`some none`, raises), and parsed (`some (some t)`).
`pass_count`, `fail_count` and `total_scans` are carried by backup files
but `restore_data` never reads them. -/
structure RestoreJobData where
  job_id : Option String
  expected_barcode : Option String
  pieces_per_shipper : Option Int
  target_quantity : Option Int
  start_time : Option Int
  pass_count : Option Int
  fail_count : Option Int
  total_scans : Option Int
  is_active : Bool
  end_time : Option (Option Int)
  recent_scans : List RestoreScanData
deriving DecidableEq

/-- A parsed restore payload (`shift_stats` / `active_job` keys optional). -/
structure RestoreData where
  shift_stats : Option RestoreShiftData
  active_job : Option RestoreJobData
deriving DecidableEq

/-- An uploaded restore file: either `json.loads` fails outright, or it
yields a payload. -/
inductive RestoreInput where
  | malformedJson
  | parsed (d : RestoreData)
deriving DecidableEq

/-- Outcome of `POST /api/restore`: 500 (`JSONResponse` in the `except`
branch) or 200. -/
inductive RestoreResult where
  | serverError
  | ok
deriving DecidableEq

/-- Rebuilding the scan rows of the restored job; fails when any required
key of any entry is missing or unparseable. -/
def buildRestoredScans (pk : Nat) (startId : Nat) :
    List RestoreScanData → Option (List Scan)
  | [] => some []
  | sd :: rest =>
    match sd.barcode, sd.expected, sd.status, sd.timestamp,
        buildRestoredScans pk (startId + 1) rest with
    | some b, some e, some st, some t, some more =>
      some ({ id := startId, job_id := pk, barcode := b, expected := e,
              status := st, timestamp := t } :: more)
    | _, _, _, _, _ => none

/-- Conversion of the `shift_stats` object into its ShiftStats row: absent
key means no row; a present key requires the `date` to parse. -/
def convertShiftRows : Option RestoreShiftData → Option (List ShiftStats)
  | none => some []
  | some sd =>
    sd.date.map (fun dt =>
      [{ date := dt, total_shippers := sd.total_shippers,
         total_pieces := sd.total_pieces, total_pass := sd.total_pass,
         total_fail := sd.total_fail, jobs_completed := sd.jobs_completed }])

/-- `datetime.fromisoformat(job_data['end_time']) if job_data.get('end_time')
else None`: absent or null stays NULL; a present unparseable value raises. -/
def convertEndTime : Option (Option Int) → Option (Option Int)
  | none => some none
  | some none => none
  | some (some t) => some (some t)

/-- Building the restored Job row: all required keys must be present and
parseable.  The cached counter columns are not passed to the constructor,
so they take their defaults of `0`. -/
def convertJob (pk : Nat) (jd : RestoreJobData) : Option Job :=
  match jd.job_id, jd.expected_barcode, jd.pieces_per_shipper,
      jd.target_quantity, jd.start_time, convertEndTime jd.end_time with
  | some jid, some bc, some pcs, some tgt, some stime, some etime =>
    some { id := pk, job_id := jid, expected_barcode := bc,
           pieces_per_shipper := pcs, target_quantity := tgt,
           start_time := stime, end_time := etime, is_active := jd.is_active,
           cached_pass_count := 0, cached_fail_count := 0,
           cached_total_scans := 0 }
  | _, _, _, _, _, _ => none

/-- Building the restored Job together with its scan rows (restore first
flushes the Job to obtain its id, then inserts its `recent_scans`). -/
def convertJobAndScans (jobPk scanPk : Nat) :
    Option RestoreJobData → Option (List Job × List Scan)
  | none => some ([], [])
  | some jd =>
    match convertJob jobPk jd with
    | none => none
    | some job =>
      match buildRestoredScans job.id scanPk jd.recent_scans with
      | none => none
      | some newScans => some ([job], newScans)

/-- `restore_data` (`main.py` lines 715-771).  The handler first deletes
all Scans, Jobs and ShiftStats and **commits** that delete, then rebuilds
rows from the payload and commits again; an exception anywhere while
rebuilding (shift first, then job, then its scans — the conversions are
written as one simultaneous match, which yields the same result as the
source's sequential order) is caught, the session is rolled back, and a
500 is returned — the pending re-inserts are discarded but the committed
delete is not undone. -/
def restore_data (s : AppState) (input : RestoreInput) :
    RestoreResult × AppState :=
  match input with
  | .malformedJson => (.serverError, s)
  | .parsed d =>
    let s1 := { s with jobs := [], scans := [], shift_stats := [] }
    match convertShiftRows d.shift_stats,
        convertJobAndScans s.next_job_pk s.next_scan_pk d.active_job with
    | some shifts, some (newJobs, newScans) =>
      (.ok, { s1 with shift_stats := shifts, jobs := newJobs,
                      scans := newScans,
                      next_job_pk := s.next_job_pk + newJobs.length,
                      next_scan_pk := s.next_scan_pk + newScans.length })
    | _, _ => (.serverError, s1)

/-- Re-reading a backup file through `json.loads`: every field the backup
wrote is present, and every date string it wrote with `isoformat` parses
back with `fromisoformat`. -/
def backupScanToRestore (sc : BackupScan) : RestoreScanData :=
  { barcode := some sc.barcode, expected := some sc.expected,
    status := some sc.status, timestamp := some sc.timestamp }

/-- The restore payload obtained by uploading a backup file unchanged. -/
def backupToRestoreInput (b : BackupState) : RestoreInput :=
  .parsed
    { shift_stats := some
        { date := some b.shift_stats.date,
          total_shippers := b.shift_stats.total_shippers,
          total_pieces := b.shift_stats.total_pieces,
          total_pass := b.shift_stats.total_pass,
          total_fail := b.shift_stats.total_fail,
          jobs_completed := b.shift_stats.jobs_completed },
      active_job := b.active_job.map (fun j =>
        { job_id := some j.job_id, expected_barcode := some j.expected_barcode,
          pieces_per_shipper := some j.pieces_per_shipper,
          target_quantity := some j.target_quantity,
          start_time := some j.start_time, pass_count := some j.pass_count,
          fail_count := some j.fail_count, total_scans := some j.total_scans,
          is_active := j.is_active,
          end_time := match j.end_time with
            | none => none
            | some t => some (some t),
          recent_scans := j.recent_scans.map backupScanToRestore }) }

-- ============================================================
-- Operations: one inbound request = one atomic step
-- ============================================================

/-- One inbound request, together with the clock readings its handler
samples.  Page renders and CSV export read the same tables as `status` and
`backup` and write nothing. -/
inductive Op where
  | start (req : JobStartRequest) (now : Int)
  | scan (barcode : String) (now : Int)
  | endJob (pin ip : String) (now today : Int)
  | verifyPin (pin ip : String) (now : Int)
  | status (now today : Int)
  | backup (today : Int)
  | restore (input : RestoreInput)
deriving DecidableEq

/-- State transition of one request (`sup` is the configured
`SUPERVISOR_PIN`). -/
def applyOp (sup : String) (s : AppState) : Op → AppState
  | .start req now => (start_job s req now).2
  | .scan b now => (process_scan s b now).2
  | .endJob pin ip now today => (end_job s pin ip sup now today).2
  | .verifyPin pin ip now => (verify_pin s pin ip sup now).2
  | .status _ _ => s
  | .backup _ => s
  | .restore inp => (restore_data s inp).2

/-- Running a sequence of requests. -/
def runOps (sup : String) (s : AppState) : List Op → AppState
  | [] => s
  | op :: rest => runOps sup (applyOp sup s op) rest

/-- Number of rows with `is_active = true`. -/
def countActive (s : AppState) : Nat :=
  (s.jobs.filter (fun j => j.is_active)).length

/-- The request is a pure read (writes neither the store nor the
in-memory limiter). -/
def Op.isReadOnly : Op → Bool
  | .status _ _ => true
  | .backup _ => true
  | _ => false

/-- The request is a bulk restore. -/
def Op.isRestore : Op → Bool
  | .restore _ => true
  | _ => false

-- ============================================================
-- Scan-log counting (the quantities the cached counters mirror)
-- ============================================================

/-- `count(scans where job_id = pk and status = PASS)`. -/
def passScanCount (scans : List Scan) (pk : Nat) : Nat :=
  (scans.filter (fun sc => sc.job_id == pk && sc.status == "PASS")).length

/-- `count(scans where job_id = pk and status = FAIL)`. -/
def failScanCount (scans : List Scan) (pk : Nat) : Nat :=
  (scans.filter (fun sc => sc.job_id == pk && sc.status == "FAIL")).length

/-- `count(scans where job_id = pk)`. -/
def totalScanCount (scans : List Scan) (pk : Nat) : Nat :=
  (jobScans scans pk).length

-- ============================================================
-- Concrete demonstration states (used by witnesses and
-- counterexamples; built by running the handlers themselves)
-- ============================================================

/-- Structural invariant of the store maintained by every request: primary
keys are below the autoincrement counters, job ids are pairwise distinct,
and at most one Job row is active. -/
structure BaseInv (s : AppState) : Prop where
  job_ids_lt : ∀ j ∈ s.jobs, j.id < s.next_job_pk
  scan_ids_lt : ∀ sc ∈ s.scans, sc.job_id < s.next_job_pk
  job_ids_nodup : s.jobs.Pairwise (fun a b => a.id ≠ b.id)
  active_le_one : countActive s ≤ 1

/-- Counter-cache invariant: every scan's status is PASS or FAIL, and
every Job's cached counters equal the corresponding counts over the scan
log. -/
def CounterInv (s : AppState) : Prop :=
  (∀ sc ∈ s.scans, sc.status = "PASS" ∨ sc.status = "FAIL") ∧
  ∀ j ∈ s.jobs,
    j.cached_pass_count = (passScanCount s.scans j.id : Int) ∧
    j.cached_fail_count = (failScanCount s.scans j.id : Int) ∧
    j.cached_total_scans = (totalScanCount s.scans j.id : Int)

/-- A store with one active job expecting `"ABC123"` (`pieces_per_shipper`
2) and no scans. -/
def stateA : AppState := (start_job initState ⟨none, "ABC123", 2, 0⟩ 0).2

/-- The active job of `stateA`. -/
def jobA : Job :=
  { id := 1, job_id := "JOB_0", expected_barcode := "ABC123",
    pieces_per_shipper := 2, target_quantity := 0, start_time := 0,
    end_time := none, is_active := true, cached_pass_count := 0,
    cached_fail_count := 0, cached_total_scans := 0 }

/-- `stateA` after scanning the expected barcode once (1 PASS). -/
def stateAB : AppState := (process_scan stateA "ABC123" 1).2

/-- `stateAB` after scanning a mismatched barcode (1 PASS, 1 FAIL). -/
def stateABX : AppState := (process_scan stateAB "XYZ999" 2).2

/-- The request sequence of a full shift slice: one job expecting
`"PASS123"`, scanned 3 PASS / 2 FAIL. -/
def demoOps : List Op :=
  [.start ⟨none, "PASS123", 1, 0⟩ 0, .scan "PASS123" 1, .scan "PASS123" 2,
   .scan "FAIL001" 3, .scan "PASS123" 4, .scan "FAIL002" 5]

/-- The store after `demoOps`: one active job with 3 PASS and 2 FAIL scans. -/
def state32 : AppState := runOps "1234" initState demoOps

/-- The active job of `state32`. -/
def job32 : Job :=
  { id := 1, job_id := "JOB_0", expected_barcode := "PASS123",
    pieces_per_shipper := 1, target_quantity := 0, start_time := 0,
    end_time := none, is_active := true, cached_pass_count := 3,
    cached_fail_count := 2, cached_total_scans := 5 }

/-- A store holding an ended job with its shift rollup plus a second,
active job: two Job rows, one Scan row, one ShiftStats row. -/
def stateFull : AppState :=
  runOps "1234" initState
    [.start ⟨none, "ABC123", 1, 0⟩ 0, .scan "ABC123" 1,
     .endJob "1234" "client" 2 100, .start ⟨some "B2", "NEXT42", 1, 0⟩ 3]

/-- A syntactically valid JSON restore payload whose `shift_stats.date`
does not parse (`datetime.fromisoformat` raises). -/
def badDateRestoreInput : RestoreInput :=
  .parsed
    { shift_stats := some
        { date := none, total_shippers := 0, total_pieces := 0,
          total_pass := 0, total_fail := 0, jobs_completed := 0 },
      active_job := none }

/-- Five correct-PIN verification requests from one client, one minute
apart. -/
def fiveCorrectPinOps : List Op :=
  [.verifyPin "1234" "client" 0, .verifyPin "1234" "client" 1,
   .verifyPin "1234" "client" 2, .verifyPin "1234" "client" 3,
   .verifyPin "1234" "client" 4]

/-- The limiter state after `fiveCorrectPinOps` (supervisor PIN `"1234"`,
so every attempt succeeded). -/
def statePins : AppState := runOps "1234" initState fiveCorrectPinOps

example :
    (start_job initState ⟨none, "ABC123", 1, 0⟩ 0).1 =
      .ok { id := 1, job_id := "JOB_0", expected_barcode := "ABC123",
            pieces_per_shipper := 1, target_quantity := 0, start_time := 0,
            end_time := none, is_active := true, cached_pass_count := 0,
            cached_fail_count := 0, cached_total_scans := 0 } := by decide

example :
    ((process_scan (start_job initState ⟨none, "ABC123", 1, 0⟩ 0).2
      "ABC123" 1).1).scanStatus = some "PASS" := by decide

example :
    ((process_scan (start_job initState ⟨none, "ABC123", 1, 0⟩ 0).2
      " XYZ  " 1).1).scanStatus = some "FAIL" := by decide

-- ============================================================
-- Claim C5
-- ============================================================

/-- C5: backup followed by restore of the produced snapshot does NOT
reproduce an equivalent state.  On a store whose active job has one PASS
scan (cached counters 1/0/1), the round trip succeeds and preserves the
job identity, the scan list and today's shift totals, but the restored
job's cached `pass_count`/`total_scans` are `0` instead of `1`:
`restore_data` rebuilds the Job row without its counter columns even
though the backup payload carries them. -/
theorem backup_restore_zeroes_cached_counters :
    (restore_data stateAB (backupToRestoreInput (backup_data stateAB 100))).1
      = .ok ∧
    (findActiveJob stateAB).map Job.pass_count = some 1 ∧
    (findActiveJob stateAB).map Job.total_scans = some 1 ∧
    (findActiveJob
        (restore_data stateAB
          (backupToRestoreInput (backup_data stateAB 100))).2).map
      Job.pass_count = some 0 ∧
    (findActiveJob
        (restore_data stateAB
          (backupToRestoreInput (backup_data stateAB 100))).2).map
      Job.total_scans = some 0 ∧
    (findActiveJob
        (restore_data stateAB
          (backupToRestoreInput (backup_data stateAB 100))).2).map
      (fun j => (j.job_id, j.expected_barcode)) = some ("JOB_0", "ABC123") ∧
    (restore_data stateAB
        (backupToRestoreInput (backup_data stateAB 100))).2.scans.map
      (fun sc => (sc.barcode, sc.status)) =
      stateAB.scans.map (fun sc => (sc.barcode, sc.status)) := by decide

-- ============================================================
-- Claim C6 (counterexample)
-- ============================================================

/-- C6 counterexample: a client that has recorded zero FAILED attempts —
its five prior requests all used the correct supervisor PIN — is rejected
with 429 on its next correct-PIN request: `record_pin_attempt` appends a
timestamp for successes too, so successes count toward the
5-per-15-minute limit, contradicting the claim that a correct-PIN request
is allowed whenever fewer than 5 failures are in the window. -/
theorem success_attempts_trigger_lockout :
    (fiveCorrectPinOps.all (fun o =>
      match o with
      | .verifyPin pin _ _ => pin == "1234"
      | _ => false)) = true ∧
    (statePins.pin_attempts = [("client", [0, 1, 2, 3, 4])]) ∧
    (verify_pin statePins "1234" "client" "1234" 5).1 = .tooMany := by decide

-- ============================================================
-- Claim C7
-- ============================================================

/-- C7: there is no line-lock in `process_scan` (`main.py`) and no
`is_locked` column on `Job` (`models.py`), although
`tests/test_patches.py::test_persistent_lock` and
`migrate_add_is_locked.py` require one.  After a FAIL scan the next scan
request is served normally: it returns 200 with a PASS result and records
a second Scan row, instead of failing with 423 Locked and recording
nothing. -/
theorem scan_after_fail_still_accepted :
    (process_scan (start_job initState ⟨none, "PASS123", 1, 0⟩ 0).2
        "WRONG" 1).1.scanStatus = some "FAIL" ∧
    (process_scan
        (process_scan (start_job initState ⟨none, "PASS123", 1, 0⟩ 0).2
          "WRONG" 1).2 "PASS123" 2).1.scanStatus = some "PASS" ∧
    (process_scan
        (process_scan (start_job initState ⟨none, "PASS123", 1, 0⟩ 0).2
          "WRONG" 1).2 "PASS123" 2).2.scans.length = 2 := by decide

-- ============================================================
-- Claim C8
-- ============================================================

/-- C8: `POST /api/restore` is atomic only for input `json.loads` cannot
parse.  On a payload that parses as JSON but whose `shift_stats.date`
cannot be converted, the handler has already deleted and **committed**
every Job, Scan and ShiftStats row before the conversion raises, so the
500 response leaves an emptied store, not the pre-request state
(`stateFull` holds 2 Jobs, 1 Scan, 1 ShiftStats row). -/
theorem restore_bad_payload_wipes_store :
    (restore_data stateFull RestoreInput.malformedJson
      = (.serverError, stateFull)) ∧
    stateFull.jobs.length = 2 ∧
    stateFull.scans.length = 1 ∧
    stateFull.shift_stats.length = 1 ∧
    (restore_data stateFull badDateRestoreInput).1 = .serverError ∧
    (restore_data stateFull badDateRestoreInput).2.jobs = [] ∧
    (restore_data stateFull badDateRestoreInput).2.scans = [] ∧
    (restore_data stateFull badDateRestoreInput).2.shift_stats = [] := by decide

-- ============================================================
-- Helper lemmas
-- ============================================================

/-- Updating a client's limiter binding and reading it back yields the
written list. -/
lemma lookupAttempts_setAttempts (m : List (String × List Int)) (ip : String)
    (l : List Int) : lookupAttempts (setAttempts m ip l) ip = l := by
  induction m with
  | nil => simp [setAttempts, lookupAttempts]
  | cons p rest ih =>
    cases h : p.1 == ip
    · simp [setAttempts, lookupAttempts, h, ih]
    · simp [setAttempts, lookupAttempts, h]

/-- The full result of a successful scan, read off the handler. -/
lemma process_scan_spec (s : AppState) (raw : String) (now : Int) (j : Job)
    (hne : pyStrip raw ≠ "") (hact : findActiveJob s = some j) :
    process_scan s raw now =
      (let status := if pyStrip raw = j.expected_barcode then "PASS" else "FAIL"
       let scan : Scan :=
         { id := s.next_scan_pk, job_id := j.id, barcode := pyStrip raw,
           expected := j.expected_barcode, status := status, timestamp := now }
       let j' : Job :=
         { j with cached_total_scans := j.cached_total_scans + 1,
                  cached_pass_count :=
                    j.cached_pass_count + (if status = "PASS" then 1 else 0),
                  cached_fail_count :=
                    j.cached_fail_count + (if status = "PASS" then 0 else 1) }
       let s' : AppState :=
         { s with scans := s.scans ++ [scan],
                  jobs := updateJobRow s.jobs j.id j',
                  next_scan_pk := s.next_scan_pk + 1 }
       (.ok scan j' (recent_scans s'.scans j'.id 8), s')) := by
  unfold process_scan
  rw [if_neg hne, hact]

-- ============================================================
-- Claim C3
-- ============================================================

/-- C3: while a job is active, a barcode that is non-empty after trimming
is classified PASS exactly when the trimmed barcode equals the active
job's `expected_barcode` under plain string equality, FAIL otherwise, and
exactly the matching cached counter plus the total is incremented. -/
theorem scan_pass_iff_exact_match (s : AppState) (raw : String) (now : Int)
    (j : Job) (hne : pyStrip raw ≠ "") (hact : findActiveJob s = some j) :
    ((process_scan s raw now).1.scanStatus = some "PASS" ↔
      pyStrip raw = j.expected_barcode) ∧
    ((process_scan s raw now).1.scanStatus = some "FAIL" ↔
      pyStrip raw ≠ j.expected_barcode) ∧
    (process_scan s raw now).1.jobOf = some
      { j with cached_total_scans := j.cached_total_scans + 1,
               cached_pass_count := j.cached_pass_count +
                 (if pyStrip raw = j.expected_barcode then 1 else 0),
               cached_fail_count := j.cached_fail_count +
                 (if pyStrip raw = j.expected_barcode then 0 else 1) } := by
  have hfp : ("FAIL" : String) ≠ "PASS" := by decide
  have hpf : ("PASS" : String) ≠ "FAIL" := by decide
  rw [process_scan_spec s raw now j hne hact]
  by_cases h : pyStrip raw = j.expected_barcode <;>
    simp [ScanResult.scanStatus, ScanResult.jobOf, h, hfp, hpf]

/-- C3 witness: scenario A — with `"ABC123"` expected, scanning
`"ABC123"` is a PASS; scanning `"XYZ999"` next is a FAIL and leaves
`pass_count = 1`, `fail_count = 1`, `total_scans = 2`. -/
theorem scan_pass_iff_exact_match_check :
    (((process_scan stateA "ABC123" 1).1.scanStatus = some "PASS" ↔
        pyStrip "ABC123" = jobA.expected_barcode) ∧
      ((process_scan stateA "ABC123" 1).1.scanStatus = some "FAIL" ↔
        pyStrip "ABC123" ≠ jobA.expected_barcode) ∧
      (process_scan stateA "ABC123" 1).1.jobOf = some
        { jobA with cached_total_scans := jobA.cached_total_scans + 1,
                    cached_pass_count := jobA.cached_pass_count +
                      (if pyStrip "ABC123" = jobA.expected_barcode then 1 else 0),
                    cached_fail_count := jobA.cached_fail_count +
                      (if pyStrip "ABC123" = jobA.expected_barcode then 0 else 1) }) ∧
    ((process_scan stateAB "XYZ999" 2).1.jobOf.map
      (fun j => (j.cached_pass_count, j.cached_fail_count,
        j.cached_total_scans)) = some (1, 1, 2)) :=
  ⟨scan_pass_iff_exact_match stateA "ABC123" 1 jobA (by decide) (by decide),
   by decide⟩

-- ============================================================
-- Claim C6 (amended)
-- ============================================================

/-- C6 (amended): every recorded attempt, successful or not, counts
toward the 5-per-15-minute limit.  Whenever 5 or more attempts of any
outcome are inside the window, the next request — even with the correct
PIN — is rejected with 429; whenever fewer than 5 recorded attempts are
inside the window, a correct-PIN request is allowed, and the success is
itself recorded into the window (it does not reset it). -/
theorem pin_limiter_counts_all_attempts (s : AppState)
    (rawPin pin ip sup : String) (now : Int)
    (hval : validate_pin rawPin = .ok pin) :
    (MAX_PIN_ATTEMPTS ≤ ((lookupAttempts s.pin_attempts ip).filter
        (fun t => now - PIN_LOCKOUT_MINUTES < t)).length →
      (verify_pin s rawPin ip sup now).1 = .tooMany) ∧
    (((lookupAttempts s.pin_attempts ip).filter
        (fun t => now - PIN_LOCKOUT_MINUTES < t)).length < MAX_PIN_ATTEMPTS →
      pin = sup →
      (verify_pin s rawPin ip sup now).1 = .ok ∧
      lookupAttempts (verify_pin s rawPin ip sup now).2.pin_attempts ip =
        (lookupAttempts s.pin_attempts ip).filter
          (fun t => now - PIN_LOCKOUT_MINUTES < t) ++ [now]) := by
  constructor
  · intro h
    have hnot : ¬ ((lookupAttempts s.pin_attempts ip).filter
        (fun t => now - PIN_LOCKOUT_MINUTES < t)).length < MAX_PIN_ATTEMPTS :=
      Nat.not_lt.mpr h
    simp [verify_pin, hval, check_pin_rate_limit, hnot]
  · intro h hp
    subst hp
    simp [verify_pin, hval, check_pin_rate_limit, h, record_pin_attempt,
      lookupAttempts_setAttempts]

/-- C6 amended-claim witness: the client of `statePins` (five recorded
attempts at minutes 0–4) is locked out at minute 5 even with the correct
PIN, and allowed again at minute 20 once the window has drained, with the
success appended to its recorded attempts. -/
theorem pin_limiter_counts_all_attempts_check :
    (verify_pin statePins "1234" "client" "1234" 5).1 = .tooMany ∧
    ((verify_pin statePins "1234" "client" "1234" 20).1 = .ok ∧
      lookupAttempts
        (verify_pin statePins "1234" "client" "1234" 20).2.pin_attempts
        "client" =
      (lookupAttempts statePins.pin_attempts "client").filter
        (fun t => (20 : Int) - PIN_LOCKOUT_MINUTES < t) ++ [(20 : Int)]) :=
  ⟨(pin_limiter_counts_all_attempts statePins "1234" "1234" "client" "1234" 5
      rfl).1 (by decide),
   (pin_limiter_counts_all_attempts statePins "1234" "1234" "client" "1234" 20
      rfl).2 (by decide) rfl⟩

-- ============================================================
-- Claim C9
-- ============================================================

/-- A read-only request leaves the state untouched. -/
lemma applyOp_readOnly (sup : String) (s : AppState) (o : Op)
    (h : o.isReadOnly = true) : applyOp sup s o = s := by
  cases o <;> first | rfl | simp [Op.isReadOnly] at h

/-- A sequence of read-only requests leaves the state untouched. -/
lemma runOps_readOnly (sup : String) (s : AppState) (ops : List Op)
    (h : ∀ o ∈ ops, o.isReadOnly = true) : runOps sup s ops = s := by
  induction ops with
  | nil => rfl
  | cons o rest ih =>
    have ho := h o (List.mem_cons_self o rest)
    have hrest : ∀ x ∈ rest, x.isReadOnly = true :=
      fun x hx => h x (List.mem_cons_of_mem o hx)
    simpa [runOps, applyOp_readOnly sup s o ho] using ih hrest

/-- C9: `GET /api/status` is an idempotent read — it and the other
read-only requests write nothing, so two status calls with only read-only
requests in between (and the same clock readings) return identical
response data. -/
theorem status_read_idempotent (sup : String) (s : AppState) (ops : List Op)
    (now today : Int) (h : ∀ o ∈ ops, o.isReadOnly = true) :
    runOps sup s ops = s ∧
    get_status (runOps sup s ops) now today = get_status s now today := by
  have hs := runOps_readOnly sup s ops h
  exact ⟨hs, by rw [hs]⟩

/-- C9 witness: a status read and a backup read between two status calls
on a store with an active job and a recorded scan change nothing. -/
theorem status_read_idempotent_check :
    runOps "1234" stateAB [Op.status 7 100, Op.backup 100] = stateAB ∧
    get_status (runOps "1234" stateAB [Op.status 7 100, Op.backup 100]) 7 100
      = get_status stateAB 7 100 :=
  status_read_idempotent "1234" stateAB [Op.status 7 100, Op.backup 100] 7 100
    (by decide)

/-- Membership is preserved by the sorting insertion step. -/
lemma mem_insertScanAsc (a x : Scan) (l : List Scan) :
    x ∈ insertScanAsc a l ↔ x = a ∨ x ∈ l := by
  induction l with
  | nil => simp [insertScanAsc]
  | cons y ys ih =>
    by_cases h : a.timestamp ≤ y.timestamp
    · simp [insertScanAsc, h]
    · simp [insertScanAsc, h, List.mem_cons, ih]
      tauto

/-- Sorting the scan list permutes it: membership is unchanged. -/
lemma mem_sortScansAsc (x : Scan) (l : List Scan) :
    x ∈ sortScansAsc l ↔ x ∈ l := by
  induction l with
  | nil => simp [sortScansAsc]
  | cons y ys ih => simp [sortScansAsc, mem_insertScanAsc, ih]

/-- Flushing the active job's mutated row keeps it the first active row,
as long as the replacement is itself active. -/
lemma findActive_updateJobRow (jobs : List Job) (j j' : Job)
    (hfind : jobs.find? (fun x => x.is_active) = some j)
    (hact : j'.is_active = true) :
    (updateJobRow jobs j.id j').find? (fun x => x.is_active) = some j' := by
  induction jobs with
  | nil => simp [List.find?] at hfind
  | cons e rest ih =>
    by_cases he : e.is_active = true
    · rw [List.find?_cons_of_pos _ he] at hfind
      injection hfind with hj
      subst hj
      simp [updateJobRow, List.find?, hact]
    · have he' : e.is_active = false := by
        cases h : e.is_active
        · rfl
        · exact absurd h he
      rw [List.find?_cons_of_neg _ (by simp [he'])] at hfind
      by_cases hid : (e.id == j.id) = true
      · simp [updateJobRow, List.find?, hid, hact]
      · have hid' : (e.id == j.id) = false := by
          cases h : e.id == j.id
          · rfl
          · exact absurd h hid
        simp only [updateJobRow, List.map_cons]
        have hhead : (if (e.id == j.id) = true then j' else e) = e := by
          simp [hid']
        rw [hhead, List.find?_cons_of_neg _ (by simp [he'])]
        simpa [updateJobRow] using ih hfind

/-- Any scan row belonging to the active job appears in the backup
payload's scan list. -/
lemma backup_contains_job_scan (s : AppState) (j : Job) (sc : Scan)
    (today : Int) (hact : findActiveJob s = some j) (hmem : sc ∈ s.scans)
    (hid : sc.job_id = j.id) :
    ∃ bj, (backup_data s today).active_job = some bj ∧
      ∃ e ∈ bj.recent_scans, e.barcode = sc.barcode := by
  have hbj : (backup_data s today).active_job = some
      { job_id := j.job_id, expected_barcode := j.expected_barcode,
        pieces_per_shipper := j.pieces_per_shipper,
        target_quantity := j.target_quantity, start_time := j.start_time,
        pass_count := j.pass_count, fail_count := j.fail_count,
        total_scans := j.total_scans, total_pieces := j.total_pieces,
        is_active := j.is_active, end_time := j.end_time,
        recent_scans := (sortScansAsc (jobScans s.scans j.id)).map (fun x =>
          { barcode := x.barcode, status := x.status,
            timestamp := x.timestamp, expected := x.expected }) } := by
    simp [backup_data, hact]
  refine ⟨_, hbj, ?_⟩
  refine ⟨{ barcode := sc.barcode, status := sc.status,
            timestamp := sc.timestamp, expected := sc.expected }, ?_, rfl⟩
  apply List.mem_map.mpr
  refine ⟨sc, ?_, rfl⟩
  rw [mem_sortScansAsc]
  apply List.mem_filter.mpr
  exact ⟨hmem, by simp [hid]⟩

-- ============================================================
-- Claim C10
-- ============================================================

/-- C10: the scan endpoint applies no character denylist: any barcode
that is non-empty after trimming — including one containing `<`, `>`,
quotes, `&`, `;`, or a backslash — is accepted while a job is active, is
stored verbatim (trimmed) in the Scan row, and appears in the backup
payload's scan list; the job-start validator rejects exactly such a
string. -/
theorem scan_accepts_denylisted_barcodes (s : AppState) (raw : String)
    (now today : Int) (j : Job)
    (hne : pyStrip raw ≠ "") (hact : findActiveJob s = some j) :
    (∃ jb rec, (process_scan s raw now).1 = .ok
        { id := s.next_scan_pk, job_id := j.id, barcode := pyStrip raw,
          expected := j.expected_barcode,
          status := if pyStrip raw = j.expected_barcode then "PASS" else "FAIL",
          timestamp := now } jb rec) ∧
    (process_scan s raw now).2.scans = s.scans ++
      [{ id := s.next_scan_pk, job_id := j.id, barcode := pyStrip raw,
         expected := j.expected_barcode,
         status := if pyStrip raw = j.expected_barcode then "PASS" else "FAIL",
         timestamp := now }] ∧
    (∃ bj, (backup_data (process_scan s raw now).2 today).active_job = some bj ∧
      ∃ e ∈ bj.recent_scans, e.barcode = pyStrip raw) ∧
    validate_barcode "EV<>&;\"\\IL" =
      .error "Barcode contains invalid characters" := by
  have hjact : j.is_active = true := by
    have := List.find?_some hact
    simpa using this
  rw [process_scan_spec s raw now j hne hact]
  dsimp only
  refine ⟨⟨_, _, rfl⟩, rfl, ?_, rfl⟩
  refine backup_contains_job_scan _
    { j with cached_total_scans := j.cached_total_scans + 1,
             cached_pass_count := j.cached_pass_count +
               (if (if pyStrip raw = j.expected_barcode then "PASS"
                 else "FAIL") = "PASS" then 1 else 0),
             cached_fail_count := j.cached_fail_count +
               (if (if pyStrip raw = j.expected_barcode then "PASS"
                 else "FAIL") = "PASS" then 0 else 1) }
    { id := s.next_scan_pk, job_id := j.id, barcode := pyStrip raw,
      expected := j.expected_barcode,
      status := if pyStrip raw = j.expected_barcode then "PASS" else "FAIL",
      timestamp := now }
    today ?_ ?_ rfl
  · exact findActive_updateJobRow s.jobs j _ hact hjact
  · exact List.mem_append_right _ (List.mem_singleton_self _)

/-- C10 witness: a barcode full of denylisted characters is accepted,
stored verbatim, and exported by backup, while the job-start validator
rejects it. -/
theorem scan_accepts_denylisted_barcodes_check :
    (∃ jb rec, (process_scan stateA "EV<>&;\"\\IL" 1).1 = .ok
        { id := stateA.next_scan_pk, job_id := jobA.id,
          barcode := pyStrip "EV<>&;\"\\IL",
          expected := jobA.expected_barcode,
          status := if pyStrip "EV<>&;\"\\IL" = jobA.expected_barcode
            then "PASS" else "FAIL",
          timestamp := 1 } jb rec) ∧
    (process_scan stateA "EV<>&;\"\\IL" 1).2.scans = stateA.scans ++
      [{ id := stateA.next_scan_pk, job_id := jobA.id,
         barcode := pyStrip "EV<>&;\"\\IL",
         expected := jobA.expected_barcode,
         status := if pyStrip "EV<>&;\"\\IL" = jobA.expected_barcode
           then "PASS" else "FAIL",
         timestamp := 1 }] ∧
    (∃ bj, (backup_data (process_scan stateA "EV<>&;\"\\IL" 1).2 100).active_job
        = some bj ∧
      ∃ e ∈ bj.recent_scans, e.barcode = pyStrip "EV<>&;\"\\IL") ∧
    validate_barcode "EV<>&;\"\\IL" =
      .error "Barcode contains invalid characters" :=
  scan_accepts_denylisted_barcodes stateA "EV<>&;\"\\IL" 1 100 jobA
    (by decide) (by decide)

/-- The row `findShift` returns carries the requested date. -/
lemma date_of_findShift (rows : List ShiftStats) (today : Int)
    (r : ShiftStats) (h : findShift rows today = some r) : r.date = today := by
  have := List.find?_some h
  simpa using this

/-- Replacing the fetched shift row leaves the replacement as the row
`findShift` returns. -/
lemma findShift_updateFirstShift (rows : List ShiftStats) (today : Int)
    (r r' : ShiftStats) (hfind : findShift rows today = some r)
    (hr' : (r'.date == today) = true) :
    findShift (updateFirstShift rows today r') today = some r' := by
  induction rows with
  | nil => simp [findShift, List.find?] at hfind
  | cons e rest ih =>
    by_cases he : (e.date == today) = true
    · simp only [updateFirstShift, he, if_true]
      simp [findShift, List.find?, hr']
    · have he' : (e.date == today) = false := by
        cases h : e.date == today
        · rfl
        · exact absurd h he
      simp only [findShift] at hfind ⊢
      rw [List.find?_cons_of_neg _ (by simp [he'])] at hfind
      simp only [updateFirstShift, he', Bool.false_eq_true, if_false]
      rw [List.find?_cons_of_neg _ (by simp [he'])]
      simpa [findShift] using ih (by simpa [findShift] using hfind)

/-- Appending the freshly created shift row makes it the row `findShift`
returns, when no row for the date existed. -/
lemma findShift_append_new (rows : List ShiftStats) (today : Int)
    (r' : ShiftStats) (hnone : findShift rows today = none)
    (hr' : (r'.date == today) = true) :
    findShift (rows ++ [r']) today = some r' := by
  induction rows with
  | nil => simp [findShift, List.find?, hr']
  | cons e rest ih =>
    cases he : e.date == today with
    | true =>
      have : findShift (e :: rest) today = some e := by
        simp [findShift, List.find?, he]
      rw [this] at hnone
      exact Option.noConfusion hnone
    | false =>
      have hrest : findShift rest today = none := by
        simpa [findShift, List.find?, he] using hnone
      simpa [findShift, List.find?, he] using ih hrest

-- ============================================================
-- Claim C4
-- ============================================================

/-- C4: with a valid supervisor PIN, a non-rate-limited client and an
active job present, `end_job` — in one transaction — marks exactly that
job inactive with `end_time = now`, leaves the scan log untouched, and
adds the job's totals into today's (fetched or freshly created) ShiftStats
row: `total_shippers += total_scans`, `total_pieces += total_pieces`,
`total_pass += pass_count`, `total_fail += fail_count`,
`jobs_completed += 1`. -/
theorem end_job_accumulates_shift (s : AppState) (rawPin ip sup : String)
    (now today : Int) (j : Job)
    (hval : validate_pin rawPin = .ok sup)
    (hrate : ((lookupAttempts s.pin_attempts ip).filter
        (fun t => now - PIN_LOCKOUT_MINUTES < t)).length < MAX_PIN_ATTEMPTS)
    (hact : findActiveJob s = some j) :
    (end_job s rawPin ip sup now today).1 =
      .ok j.job_id j.total_scans j.total_pieces j.pass_count j.fail_count ∧
    (end_job s rawPin ip sup now today).2.jobs =
      updateJobRow s.jobs j.id
        { j with is_active := false, end_time := some now } ∧
    (end_job s rawPin ip sup now today).2.scans = s.scans ∧
    findShift (end_job s rawPin ip sup now today).2.shift_stats today = some
      { date := today,
        total_shippers := ((findShift s.shift_stats today).getD
          (ShiftStats.fresh today)).total_shippers + j.total_scans,
        total_pieces := ((findShift s.shift_stats today).getD
          (ShiftStats.fresh today)).total_pieces + j.total_pieces,
        total_pass := ((findShift s.shift_stats today).getD
          (ShiftStats.fresh today)).total_pass + j.pass_count,
        total_fail := ((findShift s.shift_stats today).getD
          (ShiftStats.fresh today)).total_fail + j.fail_count,
        jobs_completed := ((findShift s.shift_stats today).getD
          (ShiftStats.fresh today)).jobs_completed + 1 } := by
  have hact' : List.find? (fun x => x.is_active) s.jobs = some j := hact
  cases hsh : findShift s.shift_stats today with
  | some r =>
    have hrd : r.date = today := date_of_findShift s.shift_stats today r hsh
    refine ⟨?_, ?_, ?_, ?_⟩ <;>
      simp [end_job, hval, check_pin_rate_limit, hrate, findActiveJob, hact',
        hsh, updateJobRow]
    have heq := findShift_updateFirstShift s.shift_stats today r
      { r with total_shippers := r.total_shippers + j.total_scans,
               total_pieces := r.total_pieces + j.total_pieces,
               total_pass := r.total_pass + j.pass_count,
               total_fail := r.total_fail + j.fail_count,
               jobs_completed := r.jobs_completed + 1 }
      hsh (by simp [hrd])
    rw [heq]
    simp [hrd]
  | none =>
    refine ⟨?_, ?_, ?_, ?_⟩ <;>
      simp [end_job, hval, check_pin_rate_limit, hrate, findActiveJob, hact',
        hsh, updateJobRow]
    have heq := findShift_append_new s.shift_stats today
      { ShiftStats.fresh today with
          total_shippers := (ShiftStats.fresh today).total_shippers +
            j.total_scans,
          total_pieces := (ShiftStats.fresh today).total_pieces +
            j.total_pieces,
          total_pass := (ShiftStats.fresh today).total_pass + j.pass_count,
          total_fail := (ShiftStats.fresh today).total_fail + j.fail_count,
          jobs_completed := (ShiftStats.fresh today).jobs_completed + 1 }
      hsh (by simp [ShiftStats.fresh])
    simpa [ShiftStats.fresh] using heq

/-- C4 witness: scenario F — ending the `state32` job (3 PASS / 2 FAIL,
one piece per shipper) creates today's shift row with
`total_pass = 0 + 3`, `total_fail = 0 + 2`, `jobs_completed = 0 + 1`. -/
theorem end_job_accumulates_shift_check :
    (end_job state32 "1234" "client2" "1234" 10 100).1 =
      .ok job32.job_id job32.total_scans job32.total_pieces job32.pass_count
        job32.fail_count ∧
    (end_job state32 "1234" "client2" "1234" 10 100).2.jobs =
      updateJobRow state32.jobs job32.id
        { job32 with is_active := false, end_time := some 10 } ∧
    (end_job state32 "1234" "client2" "1234" 10 100).2.scans = state32.scans ∧
    findShift (end_job state32 "1234" "client2" "1234" 10 100).2.shift_stats
      100 = some
      { date := 100,
        total_shippers := ((findShift state32.shift_stats 100).getD
          (ShiftStats.fresh 100)).total_shippers + job32.total_scans,
        total_pieces := ((findShift state32.shift_stats 100).getD
          (ShiftStats.fresh 100)).total_pieces + job32.total_pieces,
        total_pass := ((findShift state32.shift_stats 100).getD
          (ShiftStats.fresh 100)).total_pass + job32.pass_count,
        total_fail := ((findShift state32.shift_stats 100).getD
          (ShiftStats.fresh 100)).total_fail + job32.fail_count,
        jobs_completed := ((findShift state32.shift_stats 100).getD
          (ShiftStats.fresh 100)).jobs_completed + 1 } :=
  end_job_accumulates_shift state32 "1234" "client2" "1234" 10 100 job32
    rfl (by decide) (by decide)

/-- A list containing two distinct elements has length at least two. -/
lemma two_le_length_of_mem_ne {α : Type} (l : List α) (a b : α) (ha : a ∈ l)
    (hb : b ∈ l) (hne : a ≠ b) : 2 ≤ l.length := by
  induction l with
  | nil => cases ha
  | cons x t ih =>
    rcases List.mem_cons.mp ha with rfl | ha'
    · rcases List.mem_cons.mp hb with rfl | hb'
      · exact absurd rfl hne
      · have := List.length_pos_of_mem hb'
        simp only [List.length_cons]
        omega
    · have := List.length_pos_of_mem ha'
      simp only [List.length_cons]
      omega

/-- In a list of jobs with pairwise distinct ids, an id determines the
row. -/
lemma id_unique_of_pairwise (l : List Job)
    (hp : l.Pairwise (fun a b => a.id ≠ b.id)) (a b : Job) (ha : a ∈ l)
    (hb : b ∈ l) (hid : a.id = b.id) : a = b := by
  induction l with
  | nil => cases ha
  | cons x t ih =>
    have hx := (List.pairwise_cons.mp hp).1
    have ht := (List.pairwise_cons.mp hp).2
    rcases List.mem_cons.mp ha with rfl | ha'
    · rcases List.mem_cons.mp hb with rfl | hb'
      · rfl
      · exact absurd hid (hx b hb')
    · rcases List.mem_cons.mp hb with rfl | hb'
      · exact absurd hid.symm (hx a ha')
      · exact ih ht ha' hb'

/-- What `start_job` does to the store: nothing, or — when no job was
active — it inserts one fresh active job with zeroed counters. -/
lemma start_job_state_cases (s : AppState) (req : JobStartRequest)
    (now : Int) :
    (start_job s req now).2 = s ∨
    (findActiveJob s = none ∧ ∃ jb : Job, jb.id = s.next_job_pk ∧
      jb.is_active = true ∧ jb.cached_pass_count = 0 ∧
      jb.cached_fail_count = 0 ∧ jb.cached_total_scans = 0 ∧
      (start_job s req now).2 =
        { s with jobs := s.jobs ++ [jb],
                 next_job_pk := s.next_job_pk + 1 }) := by
  unfold start_job
  cases hv : validateStartRequest req with
  | error msg => exact Or.inl rfl
  | ok v =>
    dsimp only
    by_cases hemp : pyStrip v.expected_barcode = ""
    · rw [if_pos hemp]
      exact Or.inl rfl
    · rw [if_neg hemp]
      cases hfa : findActiveJob s with
      | some active => exact Or.inl rfl
      | none =>
        dsimp only
        exact Or.inr ⟨rfl, _, rfl, rfl, rfl, rfl, rfl, rfl⟩

/-- What `process_scan` does to the store: nothing, or — when a job `j`
was active and the trimmed barcode non-empty — it appends the classified
scan and bumps `j`'s counters. -/
lemma process_scan_state_cases (s : AppState) (b : String) (now : Int) :
    (process_scan s b now).2 = s ∨
    ∃ j, findActiveJob s = some j ∧
      (process_scan s b now).2 = { s with
        scans := s.scans ++
          [{ id := s.next_scan_pk, job_id := j.id, barcode := pyStrip b,
             expected := j.expected_barcode,
             status := if pyStrip b = j.expected_barcode then "PASS"
               else "FAIL",
             timestamp := now }],
        jobs := updateJobRow s.jobs j.id
          { j with cached_total_scans := j.cached_total_scans + 1,
                   cached_pass_count := j.cached_pass_count +
                     (if (if pyStrip b = j.expected_barcode then "PASS"
                       else "FAIL") = "PASS" then 1 else 0),
                   cached_fail_count := j.cached_fail_count +
                     (if (if pyStrip b = j.expected_barcode then "PASS"
                       else "FAIL") = "PASS" then 0 else 1) },
        next_scan_pk := s.next_scan_pk + 1 } := by
  by_cases hemp : pyStrip b = ""
  · unfold process_scan
    simp only [hemp, if_pos rfl]
    exact Or.inl rfl
  · cases hfa : findActiveJob s with
    | none =>
      unfold process_scan
      simp only [if_neg hemp, hfa]
      exact Or.inl trivial
    | some j =>
      rw [process_scan_spec s b now j hemp hfa]
      exact Or.inr ⟨j, rfl, rfl⟩

/-- What `end_job` does to the Job and Scan tables: nothing, or — when a
job `j` was active — it flushes `j` marked inactive; the scan log and the
primary-key counters never change. -/
lemma end_job_tables_cases (s : AppState) (rawPin ip sup : String)
    (now today : Int) :
    ((end_job s rawPin ip sup now today).2.jobs = s.jobs ∧
      (end_job s rawPin ip sup now today).2.scans = s.scans ∧
      (end_job s rawPin ip sup now today).2.next_job_pk = s.next_job_pk ∧
      (end_job s rawPin ip sup now today).2.next_scan_pk = s.next_scan_pk ∧
      (∀ (a : String) (b c d e : Int),
        (end_job s rawPin ip sup now today).1 ≠ .ok a b c d e)) ∨
    ∃ j, findActiveJob s = some j ∧
      (end_job s rawPin ip sup now today).2.jobs =
        updateJobRow s.jobs j.id
          { j with is_active := false, end_time := some now } ∧
      (end_job s rawPin ip sup now today).2.scans = s.scans ∧
      (end_job s rawPin ip sup now today).2.next_job_pk = s.next_job_pk ∧
      (end_job s rawPin ip sup now today).2.next_scan_pk =
        s.next_scan_pk := by
  unfold end_job
  cases hv : validate_pin rawPin with
  | error msg =>
    dsimp only
    exact Or.inl ⟨rfl, rfl, rfl, rfl,
      fun a b c d e h => EndResult.noConfusion h⟩
  | ok pin =>
    dsimp only
    simp only [check_pin_rate_limit]
    by_cases hallow : (decide (((lookupAttempts s.pin_attempts ip).filter
        (fun t => now - PIN_LOCKOUT_MINUTES < t)).length <
        MAX_PIN_ATTEMPTS)) = true
    · simp only [hallow, Bool.not_true, Bool.false_eq_true, if_false]
      by_cases hsucc : (pin == sup) = true
      · simp only [hsucc, Bool.not_true, Bool.false_eq_true, if_false]
        cases hfa : findActiveJob s with
        | none => exact Or.inl (by simp)
        | some j => exact Or.inr ⟨j, by simp⟩
      · simp only [Bool.not_eq_true] at hsucc
        simp only [hsucc, Bool.not_false, if_true]
        exact Or.inl (by simp)
    · simp only [Bool.not_eq_true] at hallow
      simp only [hallow, Bool.not_false, if_true]
      exact Or.inl (by simp)

/-- `verify_pin` writes only the limiter map, never the tables. -/
lemma verify_pin_tables (s : AppState) (rawPin ip sup : String) (now : Int) :
    (verify_pin s rawPin ip sup now).2.jobs = s.jobs ∧
    (verify_pin s rawPin ip sup now).2.scans = s.scans ∧
    (verify_pin s rawPin ip sup now).2.next_job_pk = s.next_job_pk ∧
    (verify_pin s rawPin ip sup now).2.next_scan_pk = s.next_scan_pk := by
  unfold verify_pin
  cases hv : validate_pin rawPin with
  | error msg => exact ⟨rfl, rfl, rfl, rfl⟩
  | ok pin =>
    simp only [check_pin_rate_limit]
    by_cases hallow : (decide (((lookupAttempts s.pin_attempts ip).filter
        (fun t => now - PIN_LOCKOUT_MINUTES < t)).length <
        MAX_PIN_ATTEMPTS)) = true
    · simp only [hallow, Bool.not_true, Bool.false_eq_true, if_false]
      by_cases hsucc : (pin == sup) = true
      · simp only [hsucc, if_true]
        simp
      · simp only [Bool.not_eq_true] at hsucc
        simp only [hsucc, Bool.false_eq_true, if_false]
        simp
    · simp only [Bool.not_eq_true] at hallow
      simp only [hallow, Bool.not_false, if_true]
      simp

/-- Every scan row rebuilt by restore references the restored job. -/
lemma buildRestoredScans_jobid (pk : Nat) (l : List RestoreScanData)
    (startId : Nat) (scans : List Scan)
    (h : buildRestoredScans pk startId l = some scans) :
    ∀ sc ∈ scans, sc.job_id = pk := by
  induction l generalizing startId scans with
  | nil =>
    simp only [buildRestoredScans, Option.some.injEq] at h
    subst h
    intro sc hsc
    cases hsc
  | cons sd rest ih =>
    cases hb : sd.barcode with
    | none => simp [buildRestoredScans, hb] at h
    | some b =>
      cases hex : sd.expected with
      | none => simp [buildRestoredScans, hb, hex] at h
      | some e =>
        cases hst : sd.status with
        | none => simp [buildRestoredScans, hb, hex, hst] at h
        | some st =>
          cases ht : sd.timestamp with
          | none => simp [buildRestoredScans, hb, hex, hst, ht] at h
          | some t =>
            cases hmore : buildRestoredScans pk (startId + 1) rest with
            | none => simp [buildRestoredScans, hb, hex, hst, ht, hmore] at h
            | some more =>
              simp only [buildRestoredScans, hb, hex, hst, ht, hmore,
                Option.some.injEq] at h
              subst h
              intro sc hsc
              rcases List.mem_cons.mp hsc with rfl | h2
              · rfl
              · exact ih (startId + 1) more hmore sc h2

/-- The job row rebuilt by restore carries the fresh primary key and
zeroed cached counters. -/
lemma convertJob_shape (pk : Nat) (jd : RestoreJobData) (job : Job)
    (h : convertJob pk jd = some job) :
    job.id = pk ∧ job.cached_pass_count = 0 ∧ job.cached_fail_count = 0 ∧
      job.cached_total_scans = 0 := by
  cases h1 : jd.job_id with
  | none => simp [convertJob, h1] at h
  | some jid =>
    cases h2 : jd.expected_barcode with
    | none => simp [convertJob, h1, h2] at h
    | some bc =>
      cases h3 : jd.pieces_per_shipper with
      | none => simp [convertJob, h1, h2, h3] at h
      | some pcs =>
        cases h4 : jd.target_quantity with
        | none => simp [convertJob, h1, h2, h3, h4] at h
        | some tgt =>
          cases h5 : jd.start_time with
          | none => simp [convertJob, h1, h2, h3, h4, h5] at h
          | some stime =>
            cases h6 : convertEndTime jd.end_time with
            | none => simp [convertJob, h1, h2, h3, h4, h5, h6] at h
            | some etime =>
              simp only [convertJob, h1, h2, h3, h4, h5, h6,
                Option.some.injEq] at h
              subst h
              exact ⟨rfl, rfl, rfl, rfl⟩

/-- The restored Job/Scan tables: either both empty, or one job with the
fresh key and zeroed counters, all scans referencing it. -/
lemma convertJobAndScans_shape (jobPk scanPk : Nat)
    (jd? : Option RestoreJobData) (newJobs : List Job) (newScans : List Scan)
    (h : convertJobAndScans jobPk scanPk jd? = some (newJobs, newScans)) :
    (newJobs = [] ∧ newScans = []) ∨
    (∃ job, newJobs = [job] ∧ job.id = jobPk ∧ job.cached_pass_count = 0 ∧
      job.cached_fail_count = 0 ∧ job.cached_total_scans = 0 ∧
      ∀ sc ∈ newScans, sc.job_id = jobPk) := by
  cases jd? with
  | none =>
    simp only [convertJobAndScans, Option.some.injEq, Prod.mk.injEq] at h
    exact Or.inl ⟨h.1.symm, h.2.symm⟩
  | some jd =>
    cases hjob : convertJob jobPk jd with
    | none => simp [convertJobAndScans, hjob] at h
    | some job =>
      cases hsc0 : buildRestoredScans job.id scanPk jd.recent_scans with
      | none => simp [convertJobAndScans, hjob, hsc0] at h
      | some scans0 =>
        simp only [convertJobAndScans, hjob, hsc0, Option.some.injEq,
          Prod.mk.injEq] at h
        obtain ⟨hjobs, hscans'⟩ := h
        obtain ⟨hid, hp, hf, ht⟩ := convertJob_shape jobPk jd job hjob
        refine Or.inr ⟨job, hjobs.symm, hid, hp, hf, ht, ?_⟩
        intro sc hsc
        rw [← hscans'] at hsc
        exact hid ▸ buildRestoredScans_jobid job.id jd.recent_scans scanPk
          scans0 hsc0 sc hsc

/-- What `restore_data` does to the Job and Scan tables: nothing
(unparseable JSON), a committed wipe (conversion failure), or the wipe
followed by re-insertion of the converted rows. -/
lemma restore_tables_cases (s : AppState) (inp : RestoreInput) :
    (restore_data s inp).2 = s ∨
    ((restore_data s inp).2.jobs = [] ∧ (restore_data s inp).2.scans = [] ∧
      (restore_data s inp).2.next_job_pk = s.next_job_pk ∧
      (restore_data s inp).2.next_scan_pk = s.next_scan_pk) ∨
    (∃ newJobs newScans,
      (restore_data s inp).2.jobs = newJobs ∧
      (restore_data s inp).2.scans = newScans ∧
      ((newJobs = [] ∧ newScans = []) ∨
        (∃ job, newJobs = [job] ∧ job.id = s.next_job_pk ∧
          job.cached_pass_count = 0 ∧ job.cached_fail_count = 0 ∧
          job.cached_total_scans = 0 ∧
          ∀ sc ∈ newScans, sc.job_id = s.next_job_pk)) ∧
      (restore_data s inp).2.next_job_pk = s.next_job_pk + newJobs.length ∧
      (restore_data s inp).2.next_scan_pk =
        s.next_scan_pk + newScans.length) := by
  cases inp with
  | malformedJson => exact Or.inl rfl
  | parsed d =>
    unfold restore_data
    dsimp only
    cases hcs : convertShiftRows d.shift_stats with
    | none =>
      cases hcj : convertJobAndScans s.next_job_pk s.next_scan_pk
          d.active_job with
      | none => exact Or.inr (Or.inl ⟨rfl, rfl, rfl, rfl⟩)
      | some pr =>
        obtain ⟨newJobs, newScans⟩ := pr
        exact Or.inr (Or.inl ⟨rfl, rfl, rfl, rfl⟩)
    | some shifts =>
      cases hcj : convertJobAndScans s.next_job_pk s.next_scan_pk
          d.active_job with
      | none => exact Or.inr (Or.inl ⟨rfl, rfl, rfl, rfl⟩)
      | some pr =>
        obtain ⟨newJobs, newScans⟩ := pr
        exact Or.inr (Or.inr ⟨newJobs, newScans, rfl, rfl,
          convertJobAndScans_shape s.next_job_pk s.next_scan_pk d.active_job
            newJobs newScans hcj, rfl, rfl⟩)

/-- `countActive` as a `countP`. -/
lemma countActive_eq_countP (s : AppState) :
    countActive s = s.jobs.countP (fun j => j.is_active) :=
  (List.countP_eq_length_filter _ _).symm

/-- Flushing a row with the same id leaves every row's id unchanged. -/
lemma updateJobRow_id_pointwise (pk : Nat) (j' : Job) (hid : j'.id = pk)
    (x : Job) : (if x.id == pk then j' else x).id = x.id := by
  by_cases hc : (x.id == pk) = true
  · have hxe : x.id = pk := by simpa using hc
    simp only [hc, if_true, hid]
    exact hxe.symm
  · simp only [Bool.not_eq_true] at hc
    simp [hc]

/-- Flushing a row with the same id preserves pairwise-distinct ids. -/
lemma updateJobRow_pairwise (jobs : List Job) (pk : Nat) (j' : Job)
    (hid : j'.id = pk) (hp : jobs.Pairwise (fun a b => a.id ≠ b.id)) :
    (updateJobRow jobs pk j').Pairwise (fun a b => a.id ≠ b.id) := by
  unfold updateJobRow
  apply List.pairwise_map.mpr
  apply hp.imp
  intro a b hab
  rw [updateJobRow_id_pointwise pk j' hid a,
    updateJobRow_id_pointwise pk j' hid b]
  exact hab

/-- Rows produced by a flush: the old row, or the replacement when the id
matched. -/
lemma mem_updateJobRow (jobs : List Job) (pk : Nat) (j' : Job) (x : Job)
    (hx : x ∈ updateJobRow jobs pk j') :
    ∃ e ∈ jobs, (((e.id == pk) = false ∧ x = e) ∨
      ((e.id == pk) = true ∧ x = j')) := by
  rcases List.mem_map.mp hx with ⟨e, he, hfe⟩
  by_cases hc : (e.id == pk) = true
  · rw [if_pos hc] at hfe
    exact ⟨e, he, Or.inr ⟨hc, hfe.symm⟩⟩
  · simp only [Bool.not_eq_true] at hc
    rw [if_neg (by simp [hc])] at hfe
    exact ⟨e, he, Or.inl ⟨hc, hfe.symm⟩⟩

/-- Flushing the unique row with the active job's id by an equally-active
replacement does not change the number of active rows. -/
lemma countP_updateJobRow_same_active (jobs : List Job) (j j' : Job)
    (hnodup : jobs.Pairwise (fun a b => a.id ≠ b.id)) (hmem : j ∈ jobs)
    (hid : j'.id = j.id) (hsame : j'.is_active = j.is_active) :
    (updateJobRow jobs j.id j').countP (fun x => x.is_active) =
      jobs.countP (fun x => x.is_active) := by
  unfold updateJobRow
  rw [List.countP_map]
  apply List.countP_congr
  intro e he
  by_cases hc : (e.id == j.id) = true
  · have : e = j :=
      id_unique_of_pairwise jobs hnodup e j he hmem (by simpa using hc)
    subst this
    simp [hc, hsame]
  · simp only [Bool.not_eq_true] at hc
    have hne : e.id ≠ j.id := by simpa using hc
    simp [hc, hne]

/-- Flushing a row by an inactive replacement cannot increase the number
of active rows. -/
lemma countP_updateJobRow_le (jobs : List Job) (pk : Nat) (j' : Job)
    (hj' : j'.is_active = false) :
    (updateJobRow jobs pk j').countP (fun x => x.is_active) ≤
      jobs.countP (fun x => x.is_active) := by
  unfold updateJobRow
  rw [List.countP_map]
  apply List.countP_mono_left
  intro e he hcomp
  by_cases hc : (e.id == pk) = true
  · rw [Function.comp_apply, if_pos hc, hj'] at hcomp
    cases hcomp
  · simp only [Bool.not_eq_true] at hc
    rw [Function.comp_apply, if_neg (by simp [hc])] at hcomp
    exact hcomp

/-- A store with no active job has zero active rows. -/
lemma countActive_zero_of_none (s : AppState)
    (h : findActiveJob s = none) : countActive s = 0 := by
  rw [countActive_eq_countP]
  rw [List.countP_eq_zero]
  intro a ha
  exact List.find?_eq_none.mp h a ha

/-- A request that leaves the Job and Scan tables and the key counters
unchanged preserves the structural invariant. -/
lemma baseInv_of_tables_eq (s s' : AppState) (hj : s'.jobs = s.jobs)
    (hsc : s'.scans = s.scans) (hpk : s'.next_job_pk = s.next_job_pk)
    (h : BaseInv s) : BaseInv s' := by
  constructor
  · rw [hj, hpk]
    exact h.job_ids_lt
  · rw [hsc, hpk]
    exact h.scan_ids_lt
  · rw [hj]
    exact h.job_ids_nodup
  · unfold countActive
    rw [hj]
    exact h.active_le_one

/-- Flushing the unique active row as inactive leaves no active row. -/
lemma filter_update_inactive (jobs : List Job) (job j' : Job)
    (hfind : jobs.find? (fun x => x.is_active) = some job)
    (hcount : (jobs.filter (fun x => x.is_active)).length ≤ 1)
    (hj' : j'.is_active = false) :
    ((updateJobRow jobs job.id j').filter (fun x => x.is_active)).length
      = 0 := by
  have hnil : (updateJobRow jobs job.id j').filter (fun x => x.is_active)
      = [] := by
    rw [List.filter_eq_nil_iff]
    intro x hx
    rcases mem_updateJobRow jobs job.id j' x hx with ⟨e, he, hcase⟩
    rcases hcase with ⟨hbeq, hxe⟩ | ⟨hbeq, hxe⟩
    · rw [hxe]
      intro hxact
      have hjmem : job ∈ jobs := List.mem_of_find?_eq_some hfind
      have hjact : job.is_active = true := by
        simpa using List.find?_some hfind
      have hne : e ≠ job := by
        intro heq
        subst heq
        simp at hbeq
      have hememf : e ∈ jobs.filter (fun x => x.is_active) :=
        List.mem_filter.mpr ⟨he, hxact⟩
      have hjmemf : job ∈ jobs.filter (fun x => x.is_active) :=
        List.mem_filter.mpr ⟨hjmem, by simp [hjact]⟩
      have := two_le_length_of_mem_ne _ e job hememf hjmemf hne
      omega
    · rw [hxe]
      simp [hj']
  rw [hnil]
  rfl

/-- Every request preserves the structural invariant. -/
lemma baseInv_applyOp (sup : String) (s : AppState) (op : Op)
    (h : BaseInv s) : BaseInv (applyOp sup s op) := by
  cases op with
  | start req now =>
    show BaseInv (start_job s req now).2
    rcases start_job_state_cases s req now with heq |
      ⟨hnone, jb, hid, hact, _, _, _, heq⟩
    · rw [heq]
      exact h
    · rw [heq]
      constructor
      · intro x hx
        rcases List.mem_append.mp hx with hold | hnew
        · exact Nat.lt_succ_of_lt (h.job_ids_lt x hold)
        · rw [List.mem_singleton.mp hnew, hid]
          exact Nat.lt_succ_self _
      · intro sc hsc
        exact Nat.lt_succ_of_lt (h.scan_ids_lt sc hsc)
      · apply List.pairwise_append.mpr
        refine ⟨h.job_ids_nodup, List.pairwise_singleton _ _, ?_⟩
        intro a ha b hb
        rw [List.mem_singleton.mp hb, hid]
        exact Nat.ne_of_lt (h.job_ids_lt a ha)
      · have h0 : s.jobs.filter (fun x => x.is_active) = [] := by
          rw [List.filter_eq_nil_iff]
          intro a ha
          exact List.find?_eq_none.mp hnone a ha
        unfold countActive
        dsimp only
        rw [List.filter_append, h0, List.nil_append]
        simp [hact]
  | scan b now =>
    show BaseInv (process_scan s b now).2
    rcases process_scan_state_cases s b now with heq | ⟨j, hfa, heq⟩
    · rw [heq]
      exact h
    · rw [heq]
      have hjmem : j ∈ s.jobs := List.mem_of_find?_eq_some hfa
      constructor
      · intro x hx
        rcases mem_updateJobRow _ _ _ x hx with ⟨e, he, hcase⟩
        rcases hcase with ⟨_, hxe⟩ | ⟨_, hxe⟩
        · subst hxe
          exact h.job_ids_lt _ he
        · subst hxe
          exact h.job_ids_lt j hjmem
      · intro sc hsc
        rcases List.mem_append.mp hsc with hold | hnew
        · exact h.scan_ids_lt sc hold
        · rw [List.mem_singleton.mp hnew]
          exact h.job_ids_lt j hjmem
      · exact updateJobRow_pairwise s.jobs j.id _ rfl h.job_ids_nodup
      · unfold countActive
        dsimp only
        rw [← List.countP_eq_length_filter,
          countP_updateJobRow_same_active s.jobs j
            { j with cached_total_scans := j.cached_total_scans + 1,
                     cached_pass_count := j.cached_pass_count +
                       (if (if pyStrip b = j.expected_barcode then "PASS"
                         else "FAIL") = "PASS" then 1 else 0),
                     cached_fail_count := j.cached_fail_count +
                       (if (if pyStrip b = j.expected_barcode then "PASS"
                         else "FAIL") = "PASS" then 0 else 1) }
            h.job_ids_nodup hjmem rfl rfl,
          List.countP_eq_length_filter]
        exact h.active_le_one
  | endJob pin ip now today =>
    show BaseInv (end_job s pin ip sup now today).2
    rcases end_job_tables_cases s pin ip sup now today with
      ⟨hj, hsc, hpk, _, _⟩ | ⟨j, hfa, hjobs, hscans, hnp, hnsp⟩
    · exact baseInv_of_tables_eq s _ hj hsc hpk h
    · have hjmem : j ∈ s.jobs := List.mem_of_find?_eq_some hfa
      constructor
      · intro x hx
        rw [hjobs] at hx
        rcases mem_updateJobRow _ _ _ x hx with ⟨e, he, hcase⟩
        rcases hcase with ⟨_, hxe⟩ | ⟨_, hxe⟩
        · subst hxe
          rw [hnp]
          exact h.job_ids_lt _ he
        · subst hxe
          rw [hnp]
          exact h.job_ids_lt j hjmem
      · intro sc hsc
        rw [hscans] at hsc
        rw [hnp]
        exact h.scan_ids_lt sc hsc
      · rw [hjobs]
        exact updateJobRow_pairwise s.jobs j.id _ rfl h.job_ids_nodup
      · unfold countActive
        rw [hjobs, ← List.countP_eq_length_filter]
        calc (updateJobRow s.jobs j.id _).countP (fun x => x.is_active)
            ≤ s.jobs.countP (fun x => x.is_active) :=
              countP_updateJobRow_le s.jobs j.id _ rfl
          _ = (s.jobs.filter (fun x => x.is_active)).length :=
              List.countP_eq_length_filter _ _
          _ ≤ 1 := h.active_le_one
  | verifyPin pin ip now =>
    obtain ⟨hj, hsc, hpk, _⟩ := verify_pin_tables s pin ip sup now
    exact baseInv_of_tables_eq s _ hj hsc hpk h
  | status now today => exact h
  | backup today => exact h
  | restore inp =>
    show BaseInv (restore_data s inp).2
    rcases restore_tables_cases s inp with heq | ⟨hj, hscn, _, _⟩ |
      ⟨newJobs, newScans, hj, hscn, hshape, hnp, hnsp⟩
    · rw [heq]
      exact h
    · constructor
      · intro x hx
        rw [hj] at hx
        cases hx
      · intro sc hsc
        rw [hscn] at hsc
        cases hsc
      · rw [hj]
        exact List.Pairwise.nil
      · unfold countActive
        rw [hj]
        simp
    · constructor
      · intro x hx
        rw [hj] at hx
        rcases hshape with ⟨hje, _⟩ | ⟨job, hje, hid, _, _, _, _⟩
        · rw [hje] at hx
          cases hx
        · rw [hje] at hx
          rw [List.mem_singleton.mp hx, hnp, hid, hje]
          simp
      · intro sc hsc
        rw [hscn] at hsc
        rcases hshape with ⟨_, hse⟩ | ⟨job, hje, hid, _, _, _, hsall⟩
        · rw [hse] at hsc
          cases hsc
        · rw [hnp, hsall sc hsc, hje]
          simp
      · rw [hj]
        rcases hshape with ⟨hje, _⟩ | ⟨job, hje, _⟩
        · rw [hje]
          exact List.Pairwise.nil
        · rw [hje]
          exact List.pairwise_singleton _ _
      · unfold countActive
        rw [hj]
        rcases hshape with ⟨hje, _⟩ | ⟨job, hje, _⟩
        · rw [hje]
          simp
        · rw [hje]
          have := List.length_filter_le (fun x => x.is_active) [job]
          simpa using this

/-- The empty store satisfies the structural invariant. -/
lemma baseInv_init : BaseInv initState := by
  constructor
  · intro j hj
    cases hj
  · intro sc hsc
    cases hsc
  · exact List.Pairwise.nil
  · simp [countActive, initState]

/-- The structural invariant holds along any request sequence. -/
lemma baseInv_runOps (sup : String) (s : AppState) (ops : List Op)
    (h : BaseInv s) : BaseInv (runOps sup s ops) := by
  induction ops generalizing s with
  | nil => exact h
  | cons op rest ih => exact ih _ (baseInv_applyOp sup s op h)

-- ============================================================
-- Claim C1
-- ============================================================

/-- C1: along every request sequence from the empty store — start, scan,
end, PIN checks, reads and even bulk restore, each an atomic serialized
transaction — at most one Job row has `is_active = true`; and whenever
`end_job` succeeds on a store with at most one active job, it clears the
flag on that single active job, leaving none active. -/
theorem at_most_one_active_job :
    (∀ (sup : String) (ops : List Op),
      countActive (runOps sup initState ops) ≤ 1) ∧
    (∀ (s : AppState) (rawPin ip sup : String) (now today : Int)
      (a : String) (b c d e : Int),
      countActive s ≤ 1 →
      (end_job s rawPin ip sup now today).1 = .ok a b c d e →
      countActive (end_job s rawPin ip sup now today).2 = 0) := by
  constructor
  · intro sup ops
    exact (baseInv_runOps sup initState ops baseInv_init).active_le_one
  · intro s rawPin ip sup now today a b c d e hle hok
    rcases end_job_tables_cases s rawPin ip sup now today with
      ⟨_, _, _, _, hnotok⟩ | ⟨j, hfa, hjobs, _, _, _⟩
    · exact absurd hok (hnotok a b c d e)
    · unfold countActive
      rw [hjobs]
      exact filter_update_inactive s.jobs j _ hfa hle rfl

/-- C1 witness: the demo request sequence keeps at most one job active,
and a successful end on the 3-PASS/2-FAIL store leaves zero active jobs. -/
theorem at_most_one_active_job_check :
    countActive (runOps "1234" initState demoOps) ≤ 1 ∧
    countActive (end_job state32 "1234" "client2" "1234" 10 100).2 = 0 :=
  ⟨at_most_one_active_job.1 "1234" demoOps,
   at_most_one_active_job.2 state32 "1234" "client2" "1234" 10 100
     "JOB_0" 5 3 3 2 (by decide) (by decide)⟩

/-- Scan counts vanish for a job id no scan references. -/
lemma scanCounts_eq_zero_of_ne (scans : List Scan) (pk : Nat)
    (h : ∀ sc ∈ scans, sc.job_id ≠ pk) :
    passScanCount scans pk = 0 ∧ failScanCount scans pk = 0 ∧
      totalScanCount scans pk = 0 := by
  refine ⟨?_, ?_, ?_⟩ <;>
    simp only [passScanCount, failScanCount, totalScanCount, jobScans,
      List.length_eq_zero, List.filter_eq_nil_iff] <;>
    intro sc hsc <;> simp [h sc hsc]

/-- Appending a scan of another job leaves a job's counts unchanged. -/
lemma scanCounts_append_other (scans : List Scan) (sc : Scan) (pk : Nat)
    (h : sc.job_id ≠ pk) :
    passScanCount (scans ++ [sc]) pk = passScanCount scans pk ∧
    failScanCount (scans ++ [sc]) pk = failScanCount scans pk ∧
    totalScanCount (scans ++ [sc]) pk = totalScanCount scans pk := by
  refine ⟨?_, ?_, ?_⟩ <;>
    simp [passScanCount, failScanCount, totalScanCount, jobScans,
      List.filter_append, h]

/-- Appending a scan of this job bumps exactly the matching count and the
total. -/
lemma scanCounts_append_same (scans : List Scan) (sc : Scan) (pk : Nat)
    (h : sc.job_id = pk) :
    passScanCount (scans ++ [sc]) pk =
      passScanCount scans pk + (if sc.status = "PASS" then 1 else 0) ∧
    failScanCount (scans ++ [sc]) pk =
      failScanCount scans pk + (if sc.status = "FAIL" then 1 else 0) ∧
    totalScanCount (scans ++ [sc]) pk = totalScanCount scans pk + 1 := by
  refine ⟨?_, ?_, ?_⟩ <;>
    simp only [passScanCount, failScanCount, totalScanCount, jobScans,
      List.filter_append, List.length_append]
  · by_cases hp : sc.status = "PASS" <;> simp [h, hp]
  · by_cases hf : sc.status = "FAIL" <;> simp [h, hf]
  · simp [h]

/-- Counts partition: with every status PASS or FAIL, the PASS and FAIL
counts of a job sum to its total count. -/
lemma pass_add_fail (scans : List Scan) (pk : Nat)
    (h : ∀ sc ∈ scans, sc.status = "PASS" ∨ sc.status = "FAIL") :
    passScanCount scans pk + failScanCount scans pk =
      totalScanCount scans pk := by
  have hPP : (("PASS" : String) == "PASS") = true := by decide
  have hPF : (("PASS" : String) == "FAIL") = false := by decide
  have hFP : (("FAIL" : String) == "PASS") = false := by decide
  have hFF : (("FAIL" : String) == "FAIL") = true := by decide
  induction scans with
  | nil => rfl
  | cons sc rest ih =>
    have hrest := ih (fun x hx => h x (List.mem_cons_of_mem _ hx))
    have hsc := h sc (List.mem_cons_self _ _)
    unfold passScanCount failScanCount totalScanCount jobScans at hrest ⊢
    rw [List.filter_cons, List.filter_cons, List.filter_cons]
    by_cases hj : sc.job_id = pk
    · rcases hsc with hp | hf
      · simp [hj, hp, hPP, hPF]
        omega
      · simp [hj, hf, hFP, hFF]
        omega
    · simp [hj]
      omega

/-- A request that leaves the Job and Scan tables unchanged preserves the
counter-cache invariant. -/
lemma counterInv_of_tables_eq (s s' : AppState) (hj : s'.jobs = s.jobs)
    (hsc : s'.scans = s.scans) (h : CounterInv s) : CounterInv s' := by
  unfold CounterInv at *
  rw [hj, hsc]
  exact h

/-- Every request except bulk restore preserves the counter-cache
invariant. -/
lemma counterInv_applyOp (sup : String) (s : AppState) (op : Op)
    (hb : BaseInv s) (hc : CounterInv s) (hnr : op.isRestore = false) :
    CounterInv (applyOp sup s op) := by
  cases op with
  | start req now =>
    show CounterInv (start_job s req now).2
    rcases start_job_state_cases s req now with heq |
      ⟨hnone, jb, hid, hact, hp0, hf0, ht0, heq⟩
    · rw [heq]
      exact hc
    · rw [heq]
      constructor
      · intro sc hsc
        exact hc.1 sc hsc
      · intro x hx
        rcases List.mem_append.mp hx with hold | hnew
        · exact hc.2 x hold
        · rw [List.mem_singleton.mp hnew]
          have hzero := scanCounts_eq_zero_of_ne s.scans jb.id
            (fun sc hsc => by
              rw [hid]
              exact Nat.ne_of_lt (hb.scan_ids_lt sc hsc))
          rw [hp0, hf0, ht0, hzero.1, hzero.2.1, hzero.2.2]
          simp
  | scan b now =>
    show CounterInv (process_scan s b now).2
    rcases process_scan_state_cases s b now with heq | ⟨j, hfa, heq⟩
    · rw [heq]
      exact hc
    · rw [heq]
      have hjmem : j ∈ s.jobs := List.mem_of_find?_eq_some hfa
      constructor
      · intro sc hsc
        rcases List.mem_append.mp hsc with hold | hnew
        · exact hc.1 sc hold
        · rw [List.mem_singleton.mp hnew]
          by_cases hmatch : pyStrip b = j.expected_barcode <;>
            simp [hmatch]
      · intro x hx
        rcases mem_updateJobRow _ _ _ x hx with ⟨e, he, hcase⟩
        rcases hcase with ⟨hbeq, hxe⟩ | ⟨hbeq, hxe⟩
        · have hne2 : e.id ≠ j.id := by simpa using hbeq
          obtain ⟨hcp, hcf, hct⟩ := hc.2 e he
          obtain ⟨hap, haf, hat⟩ := scanCounts_append_other s.scans
            { id := s.next_scan_pk, job_id := j.id, barcode := pyStrip b,
              expected := j.expected_barcode,
              status := if pyStrip b = j.expected_barcode then "PASS"
                else "FAIL",
              timestamp := now } e.id (by simpa using hne2.symm)
          rw [hxe]
          rw [hap, haf, hat]
          exact ⟨hcp, hcf, hct⟩
        · have hej : e = j :=
            id_unique_of_pairwise s.jobs hb.job_ids_nodup e j he hjmem
              (by simpa using hbeq)
          obtain ⟨hcp, hcf, hct⟩ := hc.2 j hjmem
          obtain ⟨hap, haf, hat⟩ := scanCounts_append_same s.scans
            { id := s.next_scan_pk, job_id := j.id, barcode := pyStrip b,
              expected := j.expected_barcode,
              status := if pyStrip b = j.expected_barcode then "PASS"
                else "FAIL",
              timestamp := now } j.id rfl
          rw [hxe]
          by_cases hmatch : pyStrip b = j.expected_barcode
          · simp only [hmatch, if_pos rfl] at hap haf hat ⊢
            simp only [if_true] at *
            refine ⟨?_, ?_, ?_⟩
            · rw [hap, hcp]
              simp
            · rw [haf, hcf]
              simp
            · rw [hat, hct]
              simp
          · simp only [if_neg hmatch] at hap haf hat ⊢
            refine ⟨?_, ?_, ?_⟩
            · rw [hap, hcp]
              simp
            · rw [haf, hcf]
              simp
            · rw [hat, hct]
              simp
  | endJob pin ip now today =>
    show CounterInv (end_job s pin ip sup now today).2
    rcases end_job_tables_cases s pin ip sup now today with
      ⟨hj, hsc, _, _, _⟩ | ⟨j, hfa, hjobs, hscans, _, _⟩
    · exact counterInv_of_tables_eq s _ hj hsc hc
    · have hjmem : j ∈ s.jobs := List.mem_of_find?_eq_some hfa
      constructor
      · intro sc hsc
        rw [hscans] at hsc
        exact hc.1 sc hsc
      · intro x hx
        rw [hjobs] at hx
        rw [hscans]
        rcases mem_updateJobRow _ _ _ x hx with ⟨e, he, hcase⟩
        rcases hcase with ⟨_, hxe⟩ | ⟨_, hxe⟩
        · rw [hxe]
          exact hc.2 e he
        · rw [hxe]
          exact hc.2 j hjmem
  | verifyPin pin ip now =>
    obtain ⟨hj, hsc, _, _⟩ := verify_pin_tables s pin ip sup now
    exact counterInv_of_tables_eq s _ hj hsc hc
  | status now today => exact hc
  | backup today => exact hc
  | restore inp => simp [Op.isRestore] at hnr

/-- The empty store satisfies the counter-cache invariant. -/
lemma counterInv_init : CounterInv initState := by
  constructor
  · intro sc hsc
    cases hsc
  · intro j hj
    cases hj

/-- Both invariants hold along any restore-free request sequence. -/
lemma inv_runOps (sup : String) (s : AppState) (ops : List Op)
    (hb : BaseInv s) (hc : CounterInv s)
    (h : ∀ o ∈ ops, o.isRestore = false) :
    BaseInv (runOps sup s ops) ∧ CounterInv (runOps sup s ops) := by
  induction ops generalizing s with
  | nil => exact ⟨hb, hc⟩
  | cons op rest ih =>
    exact ih _ (baseInv_applyOp sup s op hb)
      (counterInv_applyOp sup s op hb hc (h op (List.mem_cons_self _ _)))
      (fun o ho => h o (List.mem_cons_of_mem _ ho))

-- ============================================================
-- Claim C2
-- ============================================================

/-- C2: after any restore-free request sequence from the empty store,
every Job's cached counters equal the corresponding counts over its Scan
rows — `pass_count` counts its PASS scans, `fail_count` its FAIL scans,
`total_scans` all of its scans — and `pass_count + fail_count =
total_scans`. -/
theorem cached_counters_match_scan_log (sup : String) (ops : List Op)
    (h : ∀ o ∈ ops, o.isRestore = false) :
    ∀ j ∈ (runOps sup initState ops).jobs,
      j.cached_pass_count =
        (passScanCount (runOps sup initState ops).scans j.id : Int) ∧
      j.cached_fail_count =
        (failScanCount (runOps sup initState ops).scans j.id : Int) ∧
      j.cached_total_scans =
        (totalScanCount (runOps sup initState ops).scans j.id : Int) ∧
      j.cached_pass_count + j.cached_fail_count = j.cached_total_scans := by
  obtain ⟨hb, hc⟩ := inv_runOps sup initState ops baseInv_init
    counterInv_init h
  intro j hj
  obtain ⟨hcp, hcf, hct⟩ := hc.2 j hj
  refine ⟨hcp, hcf, hct, ?_⟩
  rw [hcp, hcf, hct, ← pass_add_fail _ j.id hc.1]
  push_cast
  ring

/-- C2 witness: after the demo sequence (one start, five scans) the single
job carries counters 3/2/5 matching the scan log. -/
theorem cached_counters_match_scan_log_check :
    (∀ o ∈ demoOps, o.isRestore = false) ∧
    ∀ j ∈ (runOps "1234" initState demoOps).jobs,
      j.cached_pass_count =
        (passScanCount (runOps "1234" initState demoOps).scans j.id : Int) ∧
      j.cached_fail_count =
        (failScanCount (runOps "1234" initState demoOps).scans j.id : Int) ∧
      j.cached_total_scans =
        (totalScanCount (runOps "1234" initState demoOps).scans j.id : Int) ∧
      j.cached_pass_count + j.cached_fail_count = j.cached_total_scans :=
  ⟨by decide, cached_counters_match_scan_log "1234" demoOps (by decide)⟩

end BarcodeVerification
